import Mathlib

/-!
Verification of the hierarchical GAA aggregation pipeline
(src/data/gaa/create_aggregates.py, with the amount parsing contract of
src/data/gaa/gaa_csv_to_parquet.py and the fundcd column witnessed by
src/data/gaa/test_hierarchy.py).

Shallow embedding conventions:
- a pandas DataFrame row is a `Row`; the table is a `List Row`;
- string-typed columns are `String`; columns that may hold a pandas null
  are `Option String` (none models NaN);
- the monetary column amt is modelled as an exact rational (the spec
  fixes exact sums, and the source applies no rounding); a possibly
  unparseable amt (pd.to_numeric with errors="coerce") is `Option Rat`
  on `RawRow`, and the fillna(0) step of main() is `to_numeric_fill_zero`;
- Python str operations are re-implemented structurally over the
  character list `String.data` so that every definition evaluates inside
  the kernel; `pyLower` uses the ASCII case table of `Char.toLower`,
  which agrees with Python on every character that can survive the
  slug filter or decide a comparison against "nan";
- pandas groupby sorts its keys ascending; Python dict preserves
  insertion order and overwrites values in place; `sorted` and the
  groupby key order are modelled with `List.insertionSort` over the
  code-point lexicographic order on strings, which is the comparison
  Python uses.
-/

set_option maxRecDepth 16384

/-! ## Python string primitives -/

/-- Code-point lexicographic strict order on character lists: the order
Python uses to compare strings (and pandas to sort string group keys). -/
def strLtData : List Char → List Char → Bool
  | [], [] => false
  | [], _ :: _ => true
  | _ :: _, [] => false
  | a :: as, b :: bs =>
    if a < b then true else if b < a then false else strLtData as bs

/-- Python string strict comparison s < t. -/
def pyStrLt (s t : String) : Bool := strLtData s.data t.data

/-- Python string comparison s <= t. -/
def pyStrLe (s t : String) : Bool := pyStrLt s t || decide (s = t)

/-- Python s.startswith(p). -/
def pyStartsWith (s p : String) : Bool := p.data.isPrefixOf s.data

/-- Python membership test c in s for a single character. -/
def pyHasChar (s : String) (c : Char) : Bool := s.data.contains c

/-- Python substring test n in h. -/
def pyHasSub (h n : String) : Bool := decide (n.data <:+: h.data)

/-- Python s.lower() (ASCII case mapping). -/
def pyLower (s : String) : String := ⟨s.data.map Char.toLower⟩

/-- Python truthiness of s.strip(): some character is not whitespace. -/
def pyStripTruthy (s : String) : Bool := s.data.any (fun c => !c.isWhitespace)

/-- Python str(x) for a string column value that may be NaN: NaN prints
as "nan", a string prints as itself. -/
def pyStr (o : Option String) : String :=
  match o with
  | some s => s
  | none => "nan"

/-! ## to_slug (create_aggregates.py lines 38-50) -/

/-- Characters kept by the regex [^a-z0-9-] deletion: lowercase ASCII
letters, ASCII digits, and the hyphen. -/
def slugAllowed (c : Char) : Bool :=
  (97 ≤ c.toNat && c.toNat ≤ 122) || (48 ≤ c.toNat && c.toNat ≤ 57) || c = '-'

/-- re.sub(r"-+", "-", s): collapse every run of hyphens to one hyphen. -/
def collapseDashes : List Char → List Char
  | [] => []
  | [c] => [c]
  | c₁ :: c₂ :: cs =>
    if c₁ = '-' && c₂ = '-' then collapseDashes (c₂ :: cs)
    else c₁ :: collapseDashes (c₂ :: cs)

/-- Python s.strip("-"): drop hyphens from both ends (List.rdropWhile
is reverse, dropWhile, reverse). -/
def stripDashes (l : List Char) : List Char :=
  List.rdropWhile (fun c => c = '-') (l.dropWhile (fun c => c = '-'))

/-- to_slug: lowercase, spaces to hyphens, delete characters outside
[a-z0-9-], collapse hyphen runs, strip end hyphens. -/
def to_slug (text : String) : String :=
  ⟨stripDashes (collapseDashes
    (((text.data.map Char.toLower).map
        (fun c => if c = ' ' then '-' else c)).filter slugAllowed))⟩

/-! ## is_department_name (create_aggregates.py lines 53-76) -/

/-- Heuristic predicate deciding whether a description looks like a
department or agency name. -/
def is_department_name (desc : String) : Bool :=
  if desc = "" || pyLower desc = "nan" then false
  else
    (pyHasChar desc '(' && pyHasChar desc ')') ||
    pyStartsWith desc "Department of" ||
    pyStartsWith desc "Office of" ||
    pyStartsWith desc "Commission on" ||
    pyStartsWith desc "The " ||
    pyHasSub desc "University" || pyHasSub desc "College" ||
    pyHasSub desc "Congress" ||
    pyHasSub desc "Judiciary" ||
    pyHasSub desc "Automatic Appropriations" ||
    pyHasSub desc "Budgetary Support" ||
    pyHasSub desc "Allocations to"

/-! ## Data model -/

/-- One line item of the GAA table as the aggregator receives it from
main(): the grouping and code columns are strings (the parquet writer
stringifies every non-amt column), descriptions may be pandas nulls,
year is an integer, amt is numeric. fundcd is the fund code column that
is present in the data (test_hierarchy.py line 219) but never used by
the aggregator. -/
structure Row where
  department : String
  agency : String
  uacs_dpt_dsc : Option String
  uacs_agy_dsc : Option String
  fundcd : String
  uacs_fundsubcat_dsc : Option String
  uacs_exp_cd : String
  uacs_exp_dsc : Option String
  uacs_sobj_cd : String
  uacs_sobj_dsc : Option String
  year : Nat
  amt : Rat
deriving Repr, DecidableEq

/-- The per-year cell {"count": ..., "amount": ...} of an aggregate. -/
structure YearEntry where
  count : Nat
  amount : Rat
deriving Repr, DecidableEq

/-- Department aggregate entity (years keyed by the integer year; the
emitted JSON key is its decimal string, injectively). -/
structure DeptEntity where
  id : String
  slug : String
  description : String
  years : List (Nat × YearEntry)
deriving Repr, DecidableEq

/-- Agency aggregate entity. -/
structure AgencyEntity where
  id : String
  slug : String
  agency_code : String
  description : String
  department_id : String
  years : List (Nat × YearEntry)
deriving Repr, DecidableEq

/-- Fund sub-category aggregate entity. -/
structure FundEntity where
  id : String
  slug : String
  description : String
  department_id : String
  agency_id : String
  years : List (Nat × YearEntry)
deriving Repr, DecidableEq

/-- Expense category aggregate entity. -/
structure ExpenseEntity where
  id : String
  slug : String
  expense_code : String
  description : String
  department_id : String
  agency_id : String
  years : List (Nat × YearEntry)
deriving Repr, DecidableEq

/-- Object aggregate entity. -/
structure ObjectEntity where
  id : String
  slug : String
  object_code : String
  description : String
  department_id : String
  agency_id : String
  years : List (Nat × YearEntry)
deriving Repr, DecidableEq

/-- One element of yearly_totals.json. -/
structure YearTotal where
  year : Nat
  count : Nat
  amount : Rat
deriving Repr, DecidableEq

/-! ## Orders used for pandas groupby key sorting and Python sorted -/

/-- Boolean less-or-equal on Nat. -/
def natLe (m n : Nat) : Bool := Nat.ble m n

/-- Boolean equality test on strings. -/
def strEqB (s t : String) : Bool := decide (s = t)

/-- Lexicographic combination of a strict order on the first component
with a less-or-equal on the second: how Python compares tuples. -/
def lexB {α β : Type} (ltA eqA : α → α → Bool) (leB : β → β → Bool)
    (p q : α × β) : Bool :=
  ltA p.1 q.1 || (eqA p.1 q.1 && leB p.2 q.2)

/-- Order of pandas groupby(["department", "year"]) keys. -/
def deptKeyLe : String × Nat → String × Nat → Bool :=
  lexB pyStrLt strEqB natLe

/-- Order of pandas groupby(["agency", "department", "year"]) keys. -/
def agencyKeyLe : String × String × Nat → String × String × Nat → Bool :=
  lexB pyStrLt strEqB deptKeyLe

/-- Order of groupby keys (description, department, agency, year). -/
def key4Le : String × String × String × Nat → String × String × String × Nat → Bool :=
  lexB pyStrLt strEqB agencyKeyLe

/-- Order of groupby keys (code, description, department, agency, year). -/
def key5Le : String × String × String × String × Nat →
    String × String × String × String × Nat → Bool :=
  lexB pyStrLt strEqB key4Le

/-- Order of string pairs, for groupby(["department", "agency"]) and for
the agency output sort key (department_id, agency_code). -/
def pairLe : String × String → String × String → Bool :=
  lexB pyStrLt strEqB pyStrLe

/-- Order of string triples, for the fund, expense and object output
sort keys. -/
def tripleLe : String × String × String → String × String × String → Bool :=
  lexB pyStrLt strEqB pairLe

/-! ## Description resolution (create_aggregates.py lines 97-120, 175-196) -/

/-- Per-group statistic of pandas agg on amt: count of rows and sum of
amounts (amt is non-null everywhere after main() coerced it). -/
def rowsStats (rows : List Row) : YearEntry :=
  ⟨rows.length, (rows.map Row.amt).sum⟩

/-- groupby(description)["amt"].sum().sort_values(ascending=False):
group a set of rows by a description column (pandas drops null keys and
sorts the remaining keys ascending), sum amt per description, then sort
by summed amount descending. -/
def desc_amounts (rows : List Row) (dsc : Row → Option String) : List (String × Rat) :=
  let descs := List.insertionSort (fun s t => pyStrLe s t = true) ((rows.filterMap dsc).dedup)
  List.insertionSort (fun p q : String × Rat => q.2 ≤ p.2)
    (descs.map (fun d => (d, ((rows.filter (fun r => decide (dsc r = some d))).map Row.amt).sum)))

/-- The truthy non-"nan" non-blank test of the fallback loop:
desc and str(desc).lower() != "nan" and str(desc).strip(). -/
def desc_usable (desc : String) : Bool :=
  !(strEqB desc "") && !(strEqB (pyLower desc) "nan") && pyStripTruthy desc

/-- The loop of create_department_aggregates lines 99-120 for one
department code: first description (by descending amount) that looks
like an institution name, else first usable one, else str() of the
first row's description; the final dict .get default is the code. -/
def dept_descriptions (t : List Row) (dept_id : String) : String :=
  let dept_data := t.filter (fun r => decide (r.department = dept_id))
  let pairs := desc_amounts dept_data Row.uacs_dpt_dsc
  match pairs.find? (fun p => is_department_name p.1) with
  | some p => p.1
  | none =>
    match pairs.find? (fun p => desc_usable p.1) with
    | some p => p.1
    | none =>
      match dept_data.head? with
      | some r => pyStr r.uacs_dpt_dsc
      | none => dept_id

/-- Keys of df.groupby(["department", "agency"]), sorted ascending. -/
def agency_desc_keys (t : List Row) : List (String × String) :=
  List.insertionSort (fun k₁ k₂ => pairLe k₁ k₂ = true)
    ((t.map (fun r => (r.department, r.agency))).dedup)

/-- Python dict assignment m[k] = v: overwrite in place, else append. -/
def assocSet (m : List (String × String)) (k v : String) : List (String × String) :=
  if m.any (fun q => decide (q.1 = k)) then
    m.map (fun q => if q.1 = k then (k, v) else q)
  else m ++ [(k, v)]

/-- The agency_descriptions dict of create_aggregates.py lines 175-196,
built group by group in groupby key order; the institution-name pass
assigns unconditionally, the two fallbacks only when the composite key
is still absent. -/
def agency_descriptions (t : List Row) : List (String × String) :=
  (agency_desc_keys t).foldl (fun m k =>
    let composite_id := k.1 ++ "-" ++ k.2
    let group := t.filter (fun r => decide (r.department = k.1 ∧ r.agency = k.2))
    let pairs := desc_amounts group Row.uacs_agy_dsc
    let m₁ := match pairs.find? (fun p => is_department_name p.1) with
      | some p => assocSet m composite_id p.1
      | none => m
    if m₁.any (fun q => decide (q.1 = composite_id)) then m₁
    else
      match pairs.find? (fun p => desc_usable p.1) with
      | some p => m₁ ++ [(composite_id, p.1)]
      | none =>
        match group.head? with
        | some r => m₁ ++ [(composite_id, pyStr r.uacs_agy_dsc)]
        | none => m₁ ++ [(composite_id, "nan")]) []

/-- agency_descriptions.get(composite_id, agency_code). -/
def agency_desc_for (t : List Row) (dept_id agency_code : String) : String :=
  match (agency_descriptions t).find? (fun q => decide (q.1 = dept_id ++ "-" ++ agency_code)) with
  | some q => q.2
  | none => agency_code

/-! ## The dict-building loop shared by the five level builders -/

/-- Python dict assignment entity["years"][year] = v: overwrite the
entry for that year in place, else append it. -/
def setYear (ys : List (Nat × YearEntry)) (y : Nat) (v : YearEntry) :
    List (Nat × YearEntry) :=
  if ys.any (fun p => decide (p.1 = y)) then
    ys.map (fun p => if p.1 = y then (y, v) else p)
  else ys ++ [(y, v)]

/-- The years mapping an entity with id s ends up with after the loop
has run over all grouped rows: the grouped rows whose composite id is
s, written per year in order (later groups overwrite earlier ones that
share both the id string and the year). -/
def dictYears {G : Type} (gid : G → String) (gyear : G → Nat) (gval : G → YearEntry)
    (grouped : List G) (s : String) : List (Nat × YearEntry) :=
  (grouped.filter (fun g => decide (gid g = s))).foldl
    (fun ys g => setYear ys (gyear g) (gval g)) []

/-- One iteration of the for-loop over grouped.iterrows(): create the
entity if its composite id is new, then write its year cell. -/
def buildStep {G E : Type} (gid : G → String) (gyear : G → Nat) (gval : G → YearEntry)
    (getId : E → String) (getYears : E → List (Nat × YearEntry))
    (setYears : E → List (Nat × YearEntry) → E) (mk : G → E)
    (acc : List E) (g : G) : List E :=
  if acc.any (fun e => decide (getId e = gid g)) then
    acc.map (fun e =>
      if getId e = gid g then setYears e (setYear (getYears e) (gyear g) (gval g)) else e)
  else acc ++ [mk g]

/-- The whole for-loop: fold buildStep over the grouped rows, starting
from the empty dict. -/
def buildDict {G E : Type} (gid : G → String) (gyear : G → Nat) (gval : G → YearEntry)
    (getId : E → String) (getYears : E → List (Nat × YearEntry))
    (setYears : E → List (Nat × YearEntry) → E) (mk : G → E)
    (grouped : List G) : List E :=
  grouped.foldl (buildStep gid gyear gval getId getYears setYears mk) []

/-! ## Level builders (create_aggregates.py lines 79-410) -/

/-- Keys of df.groupby(["department", "year"]), sorted ascending. -/
def dept_group_keys (t : List Row) : List (String × Nat) :=
  List.insertionSort (fun k₁ k₂ => deptKeyLe k₁ k₂ = true)
    ((t.map (fun r => (r.department, r.year))).dedup)

/-- The rows of one (department, year) group. -/
def dept_group_rows (t : List Row) (k : String × Nat) : List Row :=
  t.filter (fun r => decide (r.department = k.1 ∧ r.year = k.2))

/-- count and sum of one (department, year) group. -/
def deptGval (t : List Row) (k : String × Nat) : YearEntry :=
  rowsStats (dept_group_rows t k)

/-- The department entity created when its id is first met. -/
def deptMk (t : List Row) (k : String × Nat) : DeptEntity :=
  let description := dept_descriptions t k.1
  { id := k.1, slug := to_slug description, description := description,
    years := [(k.2, deptGval t k)] }

/-- create_department_aggregates: group by department and year, build
the dict keyed by the department code, sort by id. -/
def create_department_aggregates (t : List Row) : List DeptEntity :=
  List.insertionSort (fun e₁ e₂ => pyStrLe e₁.id e₂.id = true)
    (buildDict (fun k => k.1) (fun k => k.2) (deptGval t)
      DeptEntity.id DeptEntity.years (fun e ys => { e with years := ys })
      (deptMk t) (dept_group_keys t))

/-- Keys of df.groupby(["agency", "department", "year"]), ascending. -/
def agency_group_keys (t : List Row) : List (String × String × Nat) :=
  List.insertionSort (fun k₁ k₂ => agencyKeyLe k₁ k₂ = true)
    ((t.map (fun r => (r.agency, r.department, r.year))).dedup)

/-- The rows of one (agency, department, year) group. -/
def agency_group_rows (t : List Row) (k : String × String × Nat) : List Row :=
  t.filter (fun r => decide (r.agency = k.1 ∧ r.department = k.2.1 ∧ r.year = k.2.2))

/-- count and sum of one (agency, department, year) group. -/
def agencyGval (t : List Row) (k : String × String × Nat) : YearEntry :=
  rowsStats (agency_group_rows t k)

/-- The composite id string of an agency group key:
f-string department-agency. -/
def agencyId (k : String × String × Nat) : String := k.2.1 ++ "-" ++ k.1

/-- The agency entity created when its composite id is first met. -/
def agencyMk (t : List Row) (k : String × String × Nat) : AgencyEntity :=
  let description := agency_desc_for t k.2.1 k.1
  { id := agencyId k, slug := to_slug description, agency_code := k.1,
    description := description, department_id := k.2.1,
    years := [(k.2.2, agencyGval t k)] }

/-- create_agency_aggregates: group by agency, department and year,
build the dict keyed by the composite id, sort by
(department_id, agency_code). -/
def create_agency_aggregates (t : List Row) : List AgencyEntity :=
  List.insertionSort
    (fun e₁ e₂ => pairLe (e₁.department_id, e₁.agency_code) (e₂.department_id, e₂.agency_code) = true)
    (buildDict agencyId (fun k => k.2.2) (agencyGval t)
      AgencyEntity.id AgencyEntity.years (fun e ys => { e with years := ys })
      (agencyMk t) (agency_group_keys t))

/-- Rows kept by the fund sub-category level:
df[df["uacs_fundsubcat_dsc"].notna() and != ""]. -/
def fund_filtered (t : List Row) : List Row :=
  t.filter (fun r => decide (r.uacs_fundsubcat_dsc ≠ none ∧ r.uacs_fundsubcat_dsc ≠ some ""))

/-- Keys of groupby(["uacs_fundsubcat_dsc", "department", "agency",
"year"]) over the filtered rows, ascending. -/
def fund_group_keys (tf : List Row) : List (String × String × String × Nat) :=
  List.insertionSort (fun k₁ k₂ => key4Le k₁ k₂ = true)
    ((tf.map (fun r => (r.uacs_fundsubcat_dsc.getD "", r.department, r.agency, r.year))).dedup)

/-- The rows of one (description, department, agency, year) group. -/
def fund_group_rows (tf : List Row) (k : String × String × String × Nat) : List Row :=
  tf.filter (fun r => decide (r.uacs_fundsubcat_dsc.getD "" = k.1 ∧
    r.department = k.2.1 ∧ r.agency = k.2.2.1 ∧ r.year = k.2.2.2))

/-- count and sum of one fund sub-category group. -/
def fundGval (tf : List Row) (k : String × String × String × Nat) : YearEntry :=
  rowsStats (fund_group_rows tf k)

/-- The composite id string of a fund group key:
f-string department-agency-description. -/
def fundId (k : String × String × String × Nat) : String :=
  k.2.1 ++ "-" ++ k.2.2.1 ++ "-" ++ k.1

/-- The fund sub-category entity created when its id is first met. -/
def fundMk (tf : List Row) (k : String × String × String × Nat) : FundEntity :=
  { id := fundId k, slug := to_slug k.1, description := k.1,
    department_id := k.2.1, agency_id := k.2.1 ++ "-" ++ k.2.2.1,
    years := [(k.2.2.2, fundGval tf k)] }

/-- create_fund_subcategory_aggregates: filter out null and empty
descriptions, group, build the dict keyed by the composite id, sort by
(department_id, agency_id, description). -/
def create_fund_subcategory_aggregates (t : List Row) : List FundEntity :=
  List.insertionSort
    (fun e₁ e₂ => tripleLe (e₁.department_id, e₁.agency_id, e₁.description)
      (e₂.department_id, e₂.agency_id, e₂.description) = true)
    (buildDict fundId (fun k => k.2.2.2) (fundGval (fund_filtered t))
      FundEntity.id FundEntity.years (fun e ys => { e with years := ys })
      (fundMk (fund_filtered t)) (fund_group_keys (fund_filtered t)))

/-- Rows kept by the expense level: non-null, non-empty uacs_exp_dsc. -/
def exp_filtered (t : List Row) : List Row :=
  t.filter (fun r => decide (r.uacs_exp_dsc ≠ none ∧ r.uacs_exp_dsc ≠ some ""))

/-- Keys of groupby(["uacs_exp_cd", "uacs_exp_dsc", "department",
"agency", "year"]) over the filtered rows, ascending. -/
def exp_group_keys (tf : List Row) : List (String × String × String × String × Nat) :=
  List.insertionSort (fun k₁ k₂ => key5Le k₁ k₂ = true)
    ((tf.map (fun r => (r.uacs_exp_cd, r.uacs_exp_dsc.getD "", r.department, r.agency, r.year))).dedup)

/-- The rows of one (code, description, department, agency, year) group. -/
def exp_group_rows (tf : List Row) (k : String × String × String × String × Nat) : List Row :=
  tf.filter (fun r => decide (r.uacs_exp_cd = k.1 ∧ r.uacs_exp_dsc.getD "" = k.2.1 ∧
    r.department = k.2.2.1 ∧ r.agency = k.2.2.2.1 ∧ r.year = k.2.2.2.2))

/-- count and sum of one expense group. -/
def expGval (tf : List Row) (k : String × String × String × String × Nat) : YearEntry :=
  rowsStats (exp_group_rows tf k)

/-- The composite id string of an expense group key:
f-string department-agency-code. -/
def expId (k : String × String × String × String × Nat) : String :=
  k.2.2.1 ++ "-" ++ k.2.2.2.1 ++ "-" ++ k.1

/-- The expense entity created when its composite id is first met. -/
def expMk (tf : List Row) (k : String × String × String × String × Nat) : ExpenseEntity :=
  { id := expId k, slug := to_slug k.2.1, expense_code := k.1,
    description := k.2.1, department_id := k.2.2.1,
    agency_id := k.2.2.1 ++ "-" ++ k.2.2.2.1,
    years := [(k.2.2.2.2, expGval tf k)] }

/-- create_expense_aggregates: filter out null and empty descriptions,
group, build the dict keyed by the composite id, sort by
(department_id, agency_id, expense_code). -/
def create_expense_aggregates (t : List Row) : List ExpenseEntity :=
  List.insertionSort
    (fun e₁ e₂ => tripleLe (e₁.department_id, e₁.agency_id, e₁.expense_code)
      (e₂.department_id, e₂.agency_id, e₂.expense_code) = true)
    (buildDict expId (fun k => k.2.2.2.2) (expGval (exp_filtered t))
      ExpenseEntity.id ExpenseEntity.years (fun e ys => { e with years := ys })
      (expMk (exp_filtered t)) (exp_group_keys (exp_filtered t)))

/-- Rows kept by the object level: non-null, non-empty, non-"nan"
uacs_sobj_dsc. -/
def obj_filtered (t : List Row) : List Row :=
  t.filter (fun r => decide (r.uacs_sobj_dsc ≠ none ∧ r.uacs_sobj_dsc ≠ some "" ∧
    r.uacs_sobj_dsc ≠ some "nan"))

/-- Keys of groupby(["uacs_sobj_cd", "uacs_sobj_dsc", "department",
"agency", "year"]) over the filtered rows, ascending. -/
def obj_group_keys (tf : List Row) : List (String × String × String × String × Nat) :=
  List.insertionSort (fun k₁ k₂ => key5Le k₁ k₂ = true)
    ((tf.map (fun r => (r.uacs_sobj_cd, r.uacs_sobj_dsc.getD "", r.department, r.agency, r.year))).dedup)

/-- The rows of one (code, description, department, agency, year) group. -/
def obj_group_rows (tf : List Row) (k : String × String × String × String × Nat) : List Row :=
  tf.filter (fun r => decide (r.uacs_sobj_cd = k.1 ∧ r.uacs_sobj_dsc.getD "" = k.2.1 ∧
    r.department = k.2.2.1 ∧ r.agency = k.2.2.2.1 ∧ r.year = k.2.2.2.2))

/-- count and sum of one object group. -/
def objGval (tf : List Row) (k : String × String × String × String × Nat) : YearEntry :=
  rowsStats (obj_group_rows tf k)

/-- The composite id string of an object group key:
f-string department-agency-code. -/
def objId (k : String × String × String × String × Nat) : String :=
  k.2.2.1 ++ "-" ++ k.2.2.2.1 ++ "-" ++ k.1

/-- The object entity created when its composite id is first met. -/
def objMk (tf : List Row) (k : String × String × String × String × Nat) : ObjectEntity :=
  { id := objId k, slug := to_slug k.2.1, object_code := k.1,
    description := k.2.1, department_id := k.2.2.1,
    agency_id := k.2.2.1 ++ "-" ++ k.2.2.2.1,
    years := [(k.2.2.2.2, objGval tf k)] }

/-- create_object_aggregates: filter out null, empty and "nan"
descriptions, group, build the dict keyed by the composite id, sort by
(department_id, agency_id, object_code). -/
def create_object_aggregates (t : List Row) : List ObjectEntity :=
  List.insertionSort
    (fun e₁ e₂ => tripleLe (e₁.department_id, e₁.agency_id, e₁.object_code)
      (e₂.department_id, e₂.agency_id, e₂.object_code) = true)
    (buildDict objId (fun k => k.2.2.2.2) (objGval (obj_filtered t))
      ObjectEntity.id ObjectEntity.years (fun e ys => { e with years := ys })
      (objMk (obj_filtered t)) (obj_group_keys (obj_filtered t)))

/-- Keys of df.groupby("year"), ascending. -/
def year_keys (t : List Row) : List Nat :=
  List.insertionSort (fun y₁ y₂ => natLe y₁ y₂ = true) ((t.map Row.year).dedup)

/-- create_yearly_totals: group by year over the whole table, then sort
the result by year. -/
def create_yearly_totals (t : List Row) : List YearTotal :=
  List.insertionSort (fun a b => natLe a.year b.year = true)
    ((year_keys t).map (fun y =>
      let rows := t.filter (fun r => decide (r.year = y))
      { year := y, count := rows.length, amount := (rows.map Row.amt).sum }))

/-! ## Properties of to_slug -/

/-- Adjacent characters are not both hyphens. -/
def noDoubleDash (a b : Char) : Prop := ¬(a = '-' ∧ b = '-')

theorem mem_collapseDashes : ∀ (l : List Char) (c : Char), c ∈ collapseDashes l → c ∈ l
  | [], _, h => by simp [collapseDashes] at h
  | [_], _, h => by simpa [collapseDashes] using h
  | a :: b :: cs, c, h => by
    rw [collapseDashes] at h
    split at h
    · exact List.mem_cons_of_mem _ (mem_collapseDashes (b :: cs) c h)
    · rcases List.mem_cons.mp h with h | h
      · exact h ▸ List.mem_cons_self _ _
      · exact List.mem_cons_of_mem _ (mem_collapseDashes (b :: cs) c h)

theorem head?_collapseDashes : ∀ l : List Char, (collapseDashes l).head? = l.head?
  | [] => rfl
  | [_] => rfl
  | a :: b :: cs => by
    rw [collapseDashes]
    split
    · rename_i h
      simp only [Bool.and_eq_true, decide_eq_true_eq] at h
      rw [head?_collapseDashes (b :: cs)]
      simp [h.1, h.2]
    · simp

theorem chain'_collapseDashes : ∀ l : List Char, List.Chain' noDoubleDash (collapseDashes l)
  | [] => by simp [collapseDashes]
  | [_] => by simp [collapseDashes]
  | a :: b :: cs => by
    rw [collapseDashes]
    split
    · exact chain'_collapseDashes (b :: cs)
    · rename_i h
      simp only [Bool.and_eq_true, decide_eq_true_eq] at h
      rw [List.chain'_cons']
      refine ⟨?_, chain'_collapseDashes (b :: cs)⟩
      intro y hy
      rw [head?_collapseDashes (b :: cs)] at hy
      simp only [List.head?_cons, Option.mem_def, Option.some.injEq] at hy
      subst hy
      exact fun hab => h ⟨hab.1, hab.2⟩

theorem collapseDashes_eq_self : ∀ l : List Char, List.Chain' noDoubleDash l → collapseDashes l = l
  | [], _ => rfl
  | [_], _ => rfl
  | a :: b :: cs, h => by
    rw [List.chain'_cons] at h
    rw [collapseDashes, if_neg, collapseDashes_eq_self (b :: cs) h.2]
    simp only [Bool.and_eq_true, decide_eq_true_eq, not_and]
    intro ha hb
    exact absurd ⟨ha, hb⟩ h.1

theorem chain'_stripDashes {l : List Char} (h : List.Chain' noDoubleDash l) :
    List.Chain' noDoubleDash (stripDashes l) := by
  unfold stripDashes List.rdropWhile
  have h₁ : List.Chain' noDoubleDash (l.dropWhile (fun c => c = '-')) :=
    h.suffix (List.dropWhile_suffix _)
  have h₂ : List.Chain' (flip noDoubleDash) ((l.dropWhile (fun c => c = '-')).reverse) :=
    List.chain'_reverse.mpr h₁
  have h₃ : List.Chain' (flip noDoubleDash)
      (((l.dropWhile (fun c => c = '-')).reverse).dropWhile (fun c => c = '-')) :=
    h₂.suffix (List.dropWhile_suffix _)
  have h₄ : List.Chain' noDoubleDash
      ((((l.dropWhile (fun c => c = '-')).reverse).dropWhile (fun c => c = '-')).reverse) :=
    List.chain'_reverse.mpr h₃
  exact h₄

theorem mem_stripDashes {l : List Char} {c : Char} (h : c ∈ stripDashes l) : c ∈ l := by
  unfold stripDashes at h
  have h₁ := (List.rdropWhile_prefix (fun c => c = '-')
    (l.dropWhile (fun c => c = '-'))).sublist.subset h
  exact (List.dropWhile_suffix (fun c => c = '-')).sublist.subset h₁

theorem slugAllowed_toLower_fixed {c : Char} (h : slugAllowed c = true) : Char.toLower c = c := by
  unfold slugAllowed at h
  simp only [Bool.or_eq_true, Bool.and_eq_true, decide_eq_true_eq] at h
  show (if c.toNat ≥ 65 ∧ c.toNat ≤ 90 then Char.ofNat (c.toNat + 32) else c) = c
  rw [if_neg]
  rcases h with ⟨h1, h2⟩ | ⟨h1, h2⟩ | rfl
  · omega
  · omega
  · decide

theorem slugAllowed_ne_space {c : Char} (h : slugAllowed c = true) : c ≠ ' ' := by
  intro hc
  subst hc
  exact absurd h (by decide)

theorem to_slug_data_eq (s : String) :
    (to_slug s).data = stripDashes (collapseDashes
      (((s.data.map Char.toLower).map
          (fun c => if c = ' ' then '-' else c)).filter slugAllowed)) := rfl

theorem to_slug_data_allowed (s : String) : ∀ c ∈ (to_slug s).data, slugAllowed c = true := by
  intro c hc
  rw [to_slug_data_eq] at hc
  exact (List.mem_filter.mp (mem_collapseDashes _ _ (mem_stripDashes hc))).2

theorem to_slug_chain' (s : String) : List.Chain' noDoubleDash (to_slug s).data := by
  rw [to_slug_data_eq]
  exact chain'_stripDashes (chain'_collapseDashes _)

theorem dropWhile_to_slug_data (s : String) :
    (to_slug s).data.dropWhile (fun c => c = '-') = (to_slug s).data := by
  rw [to_slug_data_eq]
  unfold stripDashes
  generalize collapseDashes (((s.data.map Char.toLower).map
    (fun c => if c = ' ' then '-' else c)).filter slugAllowed) = m
  rcases hp : List.rdropWhile (fun c => c = '-') (m.dropWhile (fun c => c = '-')) with _ | ⟨a, o⟩
  · rfl
  · obtain ⟨tl, htl⟩ := List.rdropWhile_prefix (fun c => c = '-') (m.dropWhile (fun c => c = '-'))
    rw [hp] at htl
    have hd : (m.dropWhile (fun c => c = '-')).dropWhile (fun c => c = '-') =
        m.dropWhile (fun c => c = '-') := List.dropWhile_idempotent _ _
    rw [← htl] at hd
    rw [List.cons_append, List.dropWhile_cons] at hd
    split at hd
    · exfalso
      have hlen : (List.dropWhile (fun c => decide (c = '-')) (o ++ tl)).length ≤
          (o ++ tl).length :=
        (List.dropWhile_suffix _).sublist.length_le
      rw [hd] at hlen
      simp only [List.length_cons] at hlen
      omega
    · rename_i ha
      rw [List.dropWhile_cons, if_neg ha]

theorem rdropWhile_to_slug_data (s : String) :
    List.rdropWhile (fun c => c = '-') (to_slug s).data = (to_slug s).data := by
  rw [to_slug_data_eq]
  unfold stripDashes
  exact List.rdropWhile_idempotent _ _

/-- to_slug is idempotent: a slug re-slugged is itself. -/
theorem to_slug_to_slug (s : String) : to_slug (to_slug s) = to_slug s := by
  have hall := to_slug_data_allowed s
  have h₁ : (to_slug s).data.map Char.toLower = (to_slug s).data := by
    rw [List.map_congr_left (fun c hc => slugAllowed_toLower_fixed (hall c hc))]
    exact List.map_id _
  have h₂ : (to_slug s).data.map (fun c => if c = ' ' then '-' else c) = (to_slug s).data := by
    rw [List.map_congr_left (fun c hc => if_neg (slugAllowed_ne_space (hall c hc)))]
    exact List.map_id _
  have h₃ : (to_slug s).data.filter slugAllowed = (to_slug s).data :=
    List.filter_eq_self.mpr hall
  have h₄ : collapseDashes (to_slug s).data = (to_slug s).data :=
    collapseDashes_eq_self _ (to_slug_chain' s)
  show (⟨stripDashes (collapseDashes ((((to_slug s).data.map Char.toLower).map
    (fun c => if c = ' ' then '-' else c)).filter slugAllowed))⟩ : String) = to_slug s
  rw [h₁, h₂, h₃, h₄]
  unfold stripDashes
  rw [dropWhile_to_slug_data, rdropWhile_to_slug_data]

/-! ## Generic facts about the dict-building loop -/

/-- First-occurrence deduplication: the sequence of keys a Python dict
ends up with after repeated insertion. -/
def firstDedup : List String → List String
  | [] => []
  | s :: l => s :: firstDedup (l.filter (fun u => u ≠ s))
termination_by l => l.length
decreasing_by
  simp only [List.length_cons]
  exact Nat.lt_succ_of_le (List.length_filter_le _ _)

theorem mem_firstDedup : ∀ (l : List String) (s : String), s ∈ firstDedup l ↔ s ∈ l
  | [], s => by simp [firstDedup]
  | a :: l, s => by
    rw [firstDedup]
    by_cases hs : s = a
    · subst hs; simp
    · simp only [List.mem_cons]
      rw [mem_firstDedup (l.filter (fun u => u ≠ a)) s]
      simp [List.mem_filter, hs]
termination_by l => l.length
decreasing_by
  simp only [List.length_cons]
  exact Nat.lt_succ_of_le (List.length_filter_le _ _)

theorem nodup_firstDedup : ∀ l : List String, (firstDedup l).Nodup
  | [] => by simp [firstDedup]
  | a :: l => by
    rw [firstDedup]
    refine List.nodup_cons.mpr ⟨?_, nodup_firstDedup _⟩
    rw [mem_firstDedup]
    simp [List.mem_filter]
termination_by l => l.length
decreasing_by
  simp only [List.length_cons]
  exact Nat.lt_succ_of_le (List.length_filter_le _ _)

theorem firstDedup_append_singleton :
    ∀ (l : List String) (a : String),
      firstDedup (l ++ [a]) = if a ∈ l then firstDedup l else firstDedup l ++ [a]
  | [], a => by simp [firstDedup]
  | s :: l, a => by
    rw [List.cons_append, firstDedup, List.filter_append]
    by_cases has : a = s
    · subst has
      rw [(by simp : [a].filter (fun u => u ≠ a) = []), List.append_nil,
        if_pos (List.mem_cons_self a l), firstDedup]
    · have hfa : [a].filter (fun u => u ≠ s) = [a] := by simp [has]
      rw [hfa, firstDedup_append_singleton (l.filter (fun u => u ≠ s)) a]
      by_cases hal : a ∈ l
      · rw [if_pos (List.mem_filter.mpr ⟨hal, by simp [has]⟩),
          if_pos (List.mem_cons_of_mem _ hal), firstDedup]
      · rw [if_neg (fun hm => hal (List.mem_filter.mp hm).1),
          if_neg (fun hm => (List.mem_cons.mp hm).elim has hal), firstDedup, List.cons_append]
termination_by l => l.length
decreasing_by
  simp only [List.length_cons]
  exact Nat.lt_succ_of_le (List.length_filter_le _ _)

section BuildTheory

variable {G E : Type}
variable (gid : G → String) (gyear : G → Nat) (gval : G → YearEntry)
variable (getId : E → String) (getYears : E → List (Nat × YearEntry))
variable (setYears : E → List (Nat × YearEntry) → E) (mk : G → E)

/-- The loop invariant tying the dict contents to the processed prefix
of the grouped rows. -/
def BuildInv (processed : List G) (acc : List E) : Prop :=
  acc.map getId = firstDedup (processed.map gid) ∧
  ∀ e ∈ acc, ∃ g ∈ processed, gid g = getId e ∧
    e = setYears (mk g) (dictYears gid gyear gval processed (getId e))

theorem dictYears_append_ne (processed : List G) (g : G) (s : String) (h : gid g ≠ s) :
    dictYears gid gyear gval (processed ++ [g]) s = dictYears gid gyear gval processed s := by
  unfold dictYears
  rw [List.filter_append]
  simp [h]

theorem dictYears_append_eq (processed : List G) (g : G) (s : String) (h : gid g = s) :
    dictYears gid gyear gval (processed ++ [g]) s =
      setYear (dictYears gid gyear gval processed s) (gyear g) (gval g) := by
  unfold dictYears
  rw [List.filter_append, List.foldl_append]
  simp [h]

theorem dictYears_nil_of_not_mem (processed : List G) (s : String)
    (h : s ∉ processed.map gid) :
    dictYears gid gyear gval processed s = [] := by
  unfold dictYears
  rw [List.filter_eq_nil_iff.mpr]
  · rfl
  · intro g hg
    simp only [decide_eq_true_eq]
    exact fun hgs => h (List.mem_map.mpr ⟨g, hg, hgs⟩)

theorem buildStep_inv
    (hmk_id : ∀ g, getId (mk g) = gid g)
    (hset_id : ∀ e ys, getId (setYears e ys) = getId e)
    (hset_years : ∀ e ys, getYears (setYears e ys) = ys)
    (hset_set : ∀ e ys ys', setYears (setYears e ys) ys' = setYears e ys')
    (hset_mk : ∀ g, setYears (mk g) [(gyear g, gval g)] = mk g)
    (processed : List G) (acc : List E) (g : G)
    (h : BuildInv gid gyear gval getId setYears mk processed acc) :
    BuildInv gid gyear gval getId setYears mk (processed ++ [g])
      (buildStep gid gyear gval getId getYears setYears mk acc g) := by
  obtain ⟨hids, hch⟩ := h
  unfold buildStep
  by_cases hany : ∃ e ∈ acc, getId e = gid g
  · have hguard : (acc.any (fun e => decide (getId e = gid g))) = true := by
      obtain ⟨e, he, hei⟩ := hany
      exact List.any_eq_true.mpr ⟨e, he, by simp [hei]⟩
    rw [if_pos hguard]
    have hgin : gid g ∈ processed.map gid := by
      obtain ⟨e, he, hei⟩ := hany
      have : gid g ∈ acc.map getId := List.mem_map.mpr ⟨e, he, hei⟩
      rw [hids] at this
      exact (mem_firstDedup _ _).mp this
    constructor
    · rw [List.map_map]
      have hmaps : acc.map (getId ∘ fun e =>
          if getId e = gid g then setYears e (setYear (getYears e) (gyear g) (gval g)) else e) =
          acc.map getId := by
        apply List.map_congr_left
        intro e _
        by_cases hc : getId e = gid g
        · simp [hc, hset_id]
        · simp [hc]
      rw [hmaps, hids]
      simp only [List.map_append, List.map_cons, List.map_nil]
      rw [firstDedup_append_singleton, if_pos hgin]
    · intro e' he'
      obtain ⟨e, he, hee'⟩ := List.mem_map.mp he'
      obtain ⟨g₀, hg₀, hg₀id, heq⟩ := hch e he
      by_cases hc : getId e = gid g
      · rw [if_pos hc] at hee'
        subst hee'
        refine ⟨g₀, List.mem_append_left _ hg₀, ?_, ?_⟩
        · rw [hset_id, hg₀id]
        · rw [hset_id]
          have hyrs : getYears e = dictYears gid gyear gval processed (getId e) := by
            conv_lhs => rw [heq]
            rw [hset_years]
          rw [dictYears_append_eq gid gyear gval processed g (getId e) hc.symm, ← hyrs]
          conv_lhs => rw [heq]
          rw [hset_set, hset_years, hyrs]
      · rw [if_neg hc] at hee'
        subst hee'
        refine ⟨g₀, List.mem_append_left _ hg₀, hg₀id, ?_⟩
        rw [dictYears_append_ne gid gyear gval processed g (getId e) (fun hh => hc hh.symm)]
        exact heq
  · have hguard : (acc.any (fun e => decide (getId e = gid g))) = false := by
      rw [List.any_eq_false]
      intro e he
      simp only [decide_eq_true_eq]
      exact fun hc => hany ⟨e, he, hc⟩
    rw [if_neg (by simp [hguard])]
    have hgnot : gid g ∉ processed.map gid := by
      intro hmem
      have h2 : gid g ∈ acc.map getId := by
        rw [hids]
        exact (mem_firstDedup _ _).mpr hmem
      obtain ⟨e, he, hei⟩ := List.mem_map.mp h2
      exact hany ⟨e, he, hei⟩
    constructor
    · simp only [List.map_append, List.map_cons, List.map_nil, hids]
      rw [firstDedup_append_singleton, if_neg hgnot, hmk_id]
    · intro e' he'
      rcases List.mem_append.mp he' with he' | he'
      · obtain ⟨g₀, hg₀, hg₀id, heq⟩ := hch e' he'
        have hne : gid g ≠ getId e' := by
          intro hh
          exact hany ⟨e', he', hh.symm⟩
        refine ⟨g₀, List.mem_append_left _ hg₀, hg₀id, ?_⟩
        rw [dictYears_append_ne gid gyear gval processed g (getId e') hne]
        exact heq
      · have he'' : e' = mk g := by simpa using he'
        subst he''
        refine ⟨g, List.mem_append_right _ (List.mem_cons_self _ _), (hmk_id g).symm, ?_⟩
        rw [hmk_id g,
          dictYears_append_eq gid gyear gval processed g (gid g) rfl,
          dictYears_nil_of_not_mem gid gyear gval processed (gid g) hgnot]
        have hsy : setYear [] (gyear g) (gval g) = [(gyear g, gval g)] := by simp [setYear]
        rw [hsy, hset_mk]
end BuildTheory

section BuildTheoryCor

variable {G E : Type}
variable (gid : G → String) (gyear : G → Nat) (gval : G → YearEntry)
variable (getId : E → String) (getYears : E → List (Nat × YearEntry))
variable (setYears : E → List (Nat × YearEntry) → E) (mk : G → E)

theorem buildDict_inv_aux
    (hmk_id : ∀ g, getId (mk g) = gid g)
    (hset_id : ∀ e ys, getId (setYears e ys) = getId e)
    (hset_years : ∀ e ys, getYears (setYears e ys) = ys)
    (hset_set : ∀ e ys ys', setYears (setYears e ys) ys' = setYears e ys')
    (hset_mk : ∀ g, setYears (mk g) [(gyear g, gval g)] = mk g) :
    ∀ (rest processed : List G) (acc : List E),
      BuildInv gid gyear gval getId setYears mk processed acc →
      BuildInv gid gyear gval getId setYears mk (processed ++ rest)
        (rest.foldl (buildStep gid gyear gval getId getYears setYears mk) acc)
  | [], processed, acc, h => by simpa using h
  | g :: rest, processed, acc, h => by
    have h' := buildStep_inv gid gyear gval getId getYears setYears mk
      hmk_id hset_id hset_years hset_set hset_mk processed acc g h
    have h2 := buildDict_inv_aux hmk_id hset_id hset_years hset_set hset_mk
      rest (processed ++ [g])
      (buildStep gid gyear gval getId getYears setYears mk acc g) h'
    rw [List.append_assoc] at h2
    simpa using h2

theorem buildDict_inv
    (hmk_id : ∀ g, getId (mk g) = gid g)
    (hset_id : ∀ e ys, getId (setYears e ys) = getId e)
    (hset_years : ∀ e ys, getYears (setYears e ys) = ys)
    (hset_set : ∀ e ys ys', setYears (setYears e ys) ys' = setYears e ys')
    (hset_mk : ∀ g, setYears (mk g) [(gyear g, gval g)] = mk g)
    (grouped : List G) :
    BuildInv gid gyear gval getId setYears mk grouped
      (buildDict gid gyear gval getId getYears setYears mk grouped) := by
  have h0 : BuildInv gid gyear gval getId setYears mk ([] : List G) ([] : List E) := by
    constructor
    · simp [firstDedup]
    · intro e he
      simp at he
  have h := buildDict_inv_aux gid gyear gval getId getYears setYears mk
    hmk_id hset_id hset_years hset_set hset_mk grouped [] [] h0
  simpa [buildDict] using h

end BuildTheoryCor

/-! ## Sums of the years mapping -/

theorem foldl_setYear_eq_map {G : Type} (gyear : G → Nat) (gval : G → YearEntry) :
    ∀ (gs : List G) (ys : List (Nat × YearEntry)),
      (∀ g ∈ gs, ∀ p ∈ ys, p.1 ≠ gyear g) →
      gs.Pairwise (fun g g' => gyear g ≠ gyear g') →
      gs.foldl (fun ys g => setYear ys (gyear g) (gval g)) ys =
        ys ++ gs.map (fun g => (gyear g, gval g))
  | [], ys, _, _ => by simp
  | g :: gs, ys, hys, hp => by
    rw [List.foldl_cons]
    have hnot : (ys.any (fun p => decide (p.1 = gyear g))) = false := by
      rw [List.any_eq_false]
      intro p hpmem
      simp only [decide_eq_true_eq]
      exact hys g (List.mem_cons_self _ _) p hpmem
    have hsy : setYear ys (gyear g) (gval g) = ys ++ [(gyear g, gval g)] := by
      unfold setYear
      rw [if_neg (by simp [hnot])]
    have hys' : ∀ g' ∈ gs, ∀ p ∈ ys ++ [(gyear g, gval g)], p.1 ≠ gyear g' := by
      intro g' hg' p hpmem
      rcases List.mem_append.mp hpmem with hpm | hpm
      · exact hys g' (List.mem_cons_of_mem _ hg') p hpm
      · have hpg : p = (gyear g, gval g) := by simpa using hpm
        subst hpg
        exact (List.pairwise_cons.mp hp).1 g' hg'
    rw [hsy, foldl_setYear_eq_map gyear gval gs (ys ++ [(gyear g, gval g)]) hys' hp.of_cons]
    simp

theorem dictYears_eq_map {G : Type} (gid : G → String) (gyear : G → Nat) (gval : G → YearEntry)
    (grouped : List G) (s : String)
    (hdist : (grouped.filter (fun g => decide (gid g = s))).Pairwise
      (fun g g' => gyear g ≠ gyear g')) :
    dictYears gid gyear gval grouped s =
      (grouped.filter (fun g => decide (gid g = s))).map (fun g => (gyear g, gval g)) := by
  unfold dictYears
  rw [foldl_setYear_eq_map gyear gval _ [] (by simp) hdist]
  simp

theorem sum_map_one {α : Type} : ∀ l : List α, (l.map (fun _ => (1 : Nat))).sum = l.length
  | [] => rfl
  | _ :: l => by simp [sum_map_one l, Nat.add_comm]

theorem sum_filter_split {α M : Type} [AddCommMonoid M] (wt : α → M) (p : α → Bool) :
    ∀ u : List α,
      ((u.filter p).map wt).sum + ((u.filter (fun r => !p r)).map wt).sum = (u.map wt).sum
  | [] => by simp
  | r :: u => by
    by_cases hr : p r = true
    · rw [List.filter_cons_of_pos hr, List.filter_cons_of_neg (by simp [hr]),
        List.map_cons, List.sum_cons, List.map_cons, List.sum_cons, add_assoc,
        sum_filter_split wt p u]
    · have hr' : p r = false := by simpa using hr
      rw [List.filter_cons_of_neg (by simp [hr']), List.filter_cons_of_pos (by simp [hr']),
        List.map_cons, List.sum_cons, List.map_cons, List.sum_cons, add_left_comm,
        sum_filter_split wt p u]

theorem sum_partition_by {α κ M : Type} [AddCommMonoid M] (wt : α → M) (yr : α → Nat) :
    ∀ (gs : List κ) (f : κ → Nat) (u : List α),
      gs.Pairwise (fun a b => f a ≠ f b) →
      (∀ r ∈ u, ∃ k ∈ gs, yr r = f k) →
      (gs.map (fun k => ((u.filter (fun r => decide (yr r = f k))).map wt).sum)).sum =
        (u.map wt).sum
  | [], f, u, _, hcov => by
    cases u with
    | nil => simp
    | cons r u => exact absurd (hcov r (List.mem_cons_self _ _)) (by simp)
  | k :: gs, f, u, hp, hcov => by
    rw [List.map_cons, List.sum_cons]
    have hpc := List.pairwise_cons.mp hp
    have hrw : ∀ k' ∈ gs, u.filter (fun r => decide (yr r = f k')) =
        (u.filter (fun r => !decide (yr r = f k))).filter (fun r => decide (yr r = f k')) := by
      intro k' hk'
      rw [List.filter_filter]
      apply List.filter_congr
      intro r _
      by_cases h : yr r = f k'
      · have hk : ¬(f k' = f k) := fun hh => hpc.1 k' hk' hh.symm
        simp [h, hk]
      · simp [h]
    have hmapeq : gs.map (fun k' => ((u.filter (fun r => decide (yr r = f k'))).map wt).sum)
        = gs.map (fun k' => (((u.filter (fun r => !decide (yr r = f k))).filter
            (fun r => decide (yr r = f k'))).map wt).sum) := by
      apply List.map_congr_left
      intro k' hk'
      rw [hrw k' hk']
    have hcov' : ∀ r ∈ u.filter (fun r => !decide (yr r = f k)), ∃ k' ∈ gs, yr r = f k' := by
      intro r hr
      obtain ⟨hru, hrk⟩ := List.mem_filter.mp hr
      obtain ⟨k'', hk'', hyk⟩ := hcov r hru
      rcases List.mem_cons.mp hk'' with rfl | hk''
      · exfalso
        simp [hyk] at hrk
      · exact ⟨k'', hk'', hyk⟩
    rw [hmapeq, sum_partition_by wt yr gs f (u.filter (fun r => !decide (yr r = f k))) hpc.2 hcov']
    exact sum_filter_split wt (fun r => decide (yr r = f k)) u

/-- Central conservation fact: when distinct group keys that share a
composite id string never share a year, the years mapping an entity
with id s receives sums to exactly the statistics of the rows whose own
composite id is s. -/
theorem dictYears_sums {κ : Type} [DecidableEq κ] (t : List Row) (keyf : Row → κ)
    (gid : κ → String) (gyear : κ → Nat)
    (hyear : ∀ r, gyear (keyf r) = r.year)
    (keys : List κ) (hnd : keys.Nodup)
    (hmem : ∀ k, k ∈ keys ↔ ∃ r ∈ t, keyf r = k)
    (hinj : ∀ k₁ ∈ keys, ∀ k₂ ∈ keys, gid k₁ = gid k₂ → gyear k₁ = gyear k₂ → k₁ = k₂)
    (s : String) :
    ((dictYears gid gyear (fun k => rowsStats (t.filter (fun r => decide (keyf r = k)))) keys s).map
        (fun p => p.2.count)).sum =
      (t.filter (fun r => decide (gid (keyf r) = s))).length ∧
    ((dictYears gid gyear (fun k => rowsStats (t.filter (fun r => decide (keyf r = k)))) keys s).map
        (fun p => p.2.amount)).sum =
      ((t.filter (fun r => decide (gid (keyf r) = s))).map Row.amt).sum := by
  have hgs_sub : ∀ k ∈ keys.filter (fun k => decide (gid k = s)), k ∈ keys ∧ gid k = s := by
    intro k hk
    have h := List.mem_filter.mp hk
    exact ⟨h.1, by simpa using h.2⟩
  have hdist : (keys.filter (fun k => decide (gid k = s))).Pairwise
      (fun g g' => gyear g ≠ gyear g') := by
    have hnd' : (keys.filter (fun k => decide (gid k = s))).Nodup := hnd.filter _
    exact hnd'.imp_of_mem (fun ha hb hne hyeq =>
      hne (hinj _ (hgs_sub _ ha).1 _ (hgs_sub _ hb).1
        (by rw [(hgs_sub _ ha).2, (hgs_sub _ hb).2]) hyeq))
  have hdY := dictYears_eq_map gid gyear
    (fun k => rowsStats (t.filter (fun r => decide (keyf r = k)))) keys s hdist
  have hcov : ∀ r ∈ t.filter (fun r => decide (gid (keyf r) = s)),
      ∃ k ∈ keys.filter (fun k => decide (gid k = s)), r.year = gyear k := by
    intro r hr
    obtain ⟨hrt, hrs⟩ := List.mem_filter.mp hr
    exact ⟨keyf r, List.mem_filter.mpr ⟨(hmem _).mpr ⟨r, hrt, rfl⟩, hrs⟩, (hyear r).symm⟩
  have hsplit : ∀ k ∈ keys.filter (fun k => decide (gid k = s)),
      t.filter (fun r => decide (keyf r = k)) =
        (t.filter (fun r => decide (gid (keyf r) = s))).filter
          (fun r => decide (r.year = gyear k)) := by
    intro k hk
    obtain ⟨hkk, hks⟩ := hgs_sub k hk
    rw [List.filter_filter]
    apply List.filter_congr
    intro r hrt
    by_cases h : keyf r = k
    · have h1 : gid (keyf r) = s := by rw [h, hks]
      have h2 : r.year = gyear k := by rw [← hyear r, h]
      simp [h, h2, hks]
    · have hneg : ¬(r.year = gyear k ∧ gid (keyf r) = s) := by
        rintro ⟨hy, hgid⟩
        exact h (hinj (keyf r) ((hmem _).mpr ⟨r, hrt, rfl⟩) k hkk
          (by rw [hgid, hks]) (by rw [hyear r, hy]))
      by_cases hy : r.year = gyear k
      · by_cases hg : gid (keyf r) = s
        · exact absurd ⟨hy, hg⟩ hneg
        · simp [h, hy, hg]
      · simp [h, hy]
  constructor
  · rw [hdY, List.map_map]
    have hEach : (keys.filter (fun k => decide (gid k = s))).map
        ((fun p : Nat × YearEntry => p.2.count) ∘
          (fun g => (gyear g, rowsStats (t.filter (fun r => decide (keyf r = g)))))) =
        (keys.filter (fun k => decide (gid k = s))).map
          (fun k => (((t.filter (fun r => decide (gid (keyf r) = s))).filter
            (fun r => decide (r.year = gyear k))).map (fun _ => (1 : Nat))).sum) := by
      apply List.map_congr_left
      intro k hk
      show (rowsStats (t.filter (fun r => decide (keyf r = k)))).count = _
      rw [hsplit k hk]
      exact (sum_map_one _).symm
    rw [hEach,
      sum_partition_by (fun _ => (1 : Nat)) Row.year
        (keys.filter (fun k => decide (gid k = s))) gyear
        (t.filter (fun r => decide (gid (keyf r) = s))) hdist hcov,
      sum_map_one]
  · rw [hdY, List.map_map]
    have hEach : (keys.filter (fun k => decide (gid k = s))).map
        ((fun p : Nat × YearEntry => p.2.amount) ∘
          (fun g => (gyear g, rowsStats (t.filter (fun r => decide (keyf r = g)))))) =
        (keys.filter (fun k => decide (gid k = s))).map
          (fun k => (((t.filter (fun r => decide (gid (keyf r) = s))).filter
            (fun r => decide (r.year = gyear k))).map Row.amt).sum) := by
      apply List.map_congr_left
      intro k hk
      show (rowsStats (t.filter (fun r => decide (keyf r = k)))).amount = _
      rw [hsplit k hk]
      rfl
    rw [hEach,
      sum_partition_by Row.amt Row.year
        (keys.filter (fun k => decide (gid k = s))) gyear
        (t.filter (fun r => decide (gid (keyf r) = s))) hdist hcov]

/-! ## Facts about a sorted dict build -/

theorem sorted_build_char {G E : Type}
    (gid : G → String) (gyear : G → Nat) (gval : G → YearEntry)
    (getId : E → String) (getYears : E → List (Nat × YearEntry))
    (setYears : E → List (Nat × YearEntry) → E) (mk : G → E)
    (r : E → E → Prop) [DecidableRel r]
    (hmk_id : ∀ g, getId (mk g) = gid g)
    (hset_id : ∀ e ys, getId (setYears e ys) = getId e)
    (hset_years : ∀ e ys, getYears (setYears e ys) = ys)
    (hset_set : ∀ e ys ys', setYears (setYears e ys) ys' = setYears e ys')
    (hset_mk : ∀ g, setYears (mk g) [(gyear g, gval g)] = mk g)
    (grouped : List G) :
    ∀ e ∈ List.insertionSort r (buildDict gid gyear gval getId getYears setYears mk grouped),
      ∃ g ∈ grouped, gid g = getId e ∧
        e = setYears (mk g) (dictYears gid gyear gval grouped (getId e)) := by
  intro e he
  exact (buildDict_inv gid gyear gval getId getYears setYears mk
    hmk_id hset_id hset_years hset_set hset_mk grouped).2 e
    ((List.perm_insertionSort r _).mem_iff.mp he)

theorem sorted_build_ids_nodup {G E : Type}
    (gid : G → String) (gyear : G → Nat) (gval : G → YearEntry)
    (getId : E → String) (getYears : E → List (Nat × YearEntry))
    (setYears : E → List (Nat × YearEntry) → E) (mk : G → E)
    (r : E → E → Prop) [DecidableRel r]
    (hmk_id : ∀ g, getId (mk g) = gid g)
    (hset_id : ∀ e ys, getId (setYears e ys) = getId e)
    (hset_years : ∀ e ys, getYears (setYears e ys) = ys)
    (hset_set : ∀ e ys ys', setYears (setYears e ys) ys' = setYears e ys')
    (hset_mk : ∀ g, setYears (mk g) [(gyear g, gval g)] = mk g)
    (grouped : List G) :
    ((List.insertionSort r (buildDict gid gyear gval getId getYears setYears mk grouped)).map
      getId).Nodup := by
  have hperm : ((List.insertionSort r
      (buildDict gid gyear gval getId getYears setYears mk grouped)).map getId).Perm
      ((buildDict gid gyear gval getId getYears setYears mk grouped).map getId) :=
    (List.perm_insertionSort r _).map getId
  refine hperm.nodup_iff.mpr ?_
  rw [(buildDict_inv gid gyear gval getId getYears setYears mk
    hmk_id hset_id hset_years hset_set hset_mk grouped).1]
  exact nodup_firstDedup _

theorem sorted_build_mem_ids {G E : Type}
    (gid : G → String) (gyear : G → Nat) (gval : G → YearEntry)
    (getId : E → String) (getYears : E → List (Nat × YearEntry))
    (setYears : E → List (Nat × YearEntry) → E) (mk : G → E)
    (r : E → E → Prop) [DecidableRel r]
    (hmk_id : ∀ g, getId (mk g) = gid g)
    (hset_id : ∀ e ys, getId (setYears e ys) = getId e)
    (hset_years : ∀ e ys, getYears (setYears e ys) = ys)
    (hset_set : ∀ e ys ys', setYears (setYears e ys) ys' = setYears e ys')
    (hset_mk : ∀ g, setYears (mk g) [(gyear g, gval g)] = mk g)
    (grouped : List G) (s : String) :
    (∃ e ∈ List.insertionSort r (buildDict gid gyear gval getId getYears setYears mk grouped),
      getId e = s) ↔ s ∈ grouped.map gid := by
  constructor
  · rintro ⟨e, he, rfl⟩
    obtain ⟨g, hg, hgid, _⟩ := (buildDict_inv gid gyear gval getId getYears setYears mk
      hmk_id hset_id hset_years hset_set hset_mk grouped).2 e
      ((List.perm_insertionSort r _).mem_iff.mp he)
    exact List.mem_map.mpr ⟨g, hg, hgid⟩
  · intro hs
    have h1 : s ∈ firstDedup (grouped.map gid) := (mem_firstDedup _ _).mpr hs
    rw [← (buildDict_inv gid gyear gval getId getYears setYears mk
      hmk_id hset_id hset_years hset_set hset_mk grouped).1] at h1
    obtain ⟨e, he, hei⟩ := List.mem_map.mp h1
    exact ⟨e, (List.perm_insertionSort r _).mem_iff.mpr he, hei⟩

theorem sorted_build_years {G E : Type}
    (gid : G → String) (gyear : G → Nat) (gval : G → YearEntry)
    (getId : E → String) (getYears : E → List (Nat × YearEntry))
    (setYears : E → List (Nat × YearEntry) → E) (mk : G → E)
    (r : E → E → Prop) [DecidableRel r]
    (hmk_id : ∀ g, getId (mk g) = gid g)
    (hset_id : ∀ e ys, getId (setYears e ys) = getId e)
    (hset_years : ∀ e ys, getYears (setYears e ys) = ys)
    (hset_set : ∀ e ys ys', setYears (setYears e ys) ys' = setYears e ys')
    (hset_mk : ∀ g, setYears (mk g) [(gyear g, gval g)] = mk g)
    (grouped : List G) :
    ∀ e ∈ List.insertionSort r (buildDict gid gyear gval getId getYears setYears mk grouped),
      getYears e = dictYears gid gyear gval grouped (getId e) := by
  intro e he
  obtain ⟨g, hg, hgid, heq⟩ := sorted_build_char gid gyear gval getId getYears setYears mk r
    hmk_id hset_id hset_years hset_set hset_mk grouped e he
  conv_lhs => rw [heq]
  rw [hset_years]

/-! ## Department level facts -/

theorem dept_group_keys_nodup (t : List Row) : (dept_group_keys t).Nodup := by
  unfold dept_group_keys
  exact (List.perm_insertionSort _ _).nodup_iff.mpr (List.nodup_dedup _)

theorem mem_dept_group_keys (t : List Row) (k : String × Nat) :
    k ∈ dept_group_keys t ↔ ∃ r ∈ t, (r.department, r.year) = k := by
  unfold dept_group_keys
  rw [(List.perm_insertionSort _ _).mem_iff, List.mem_dedup, List.mem_map]

theorem dept_group_rows_eq (t : List Row) (k : String × Nat) :
    dept_group_rows t k = t.filter (fun r => decide ((r.department, r.year) = k)) := by
  unfold dept_group_rows
  apply List.filter_congr
  intro r _
  rw [decide_eq_decide]
  simp [Prod.ext_iff]

theorem deptGval_eq (t : List Row) :
    deptGval t = fun k => rowsStats (t.filter (fun r => decide ((r.department, r.year) = k))) := by
  funext k
  unfold deptGval
  rw [dept_group_rows_eq]

theorem dept_char (t : List Row) : ∀ e ∈ create_department_aggregates t,
    ∃ k ∈ dept_group_keys t, k.1 = e.id ∧
      e = { deptMk t k with
            years := dictYears (fun k : String × Nat => k.1) (fun k : String × Nat => k.2)
              (deptGval t) (dept_group_keys t) e.id } :=
  sorted_build_char (fun k : String × Nat => k.1) (fun k : String × Nat => k.2)
    (deptGval t) DeptEntity.id DeptEntity.years
    (fun e ys => { e with years := ys }) (deptMk t) _ (fun _ => rfl) (fun _ _ => rfl)
    (fun _ _ => rfl) (fun _ _ _ => rfl) (fun _ => rfl) (dept_group_keys t)

theorem dept_ids_nodup (t : List Row) :
    ((create_department_aggregates t).map DeptEntity.id).Nodup :=
  sorted_build_ids_nodup (fun k : String × Nat => k.1) (fun k : String × Nat => k.2) (deptGval t) DeptEntity.id
    DeptEntity.years (fun e ys => { e with years := ys }) (deptMk t) _ (fun _ => rfl)
    (fun _ _ => rfl) (fun _ _ => rfl) (fun _ _ _ => rfl) (fun _ => rfl) (dept_group_keys t)

theorem dept_mem_ids (t : List Row) (s : String) :
    (∃ e ∈ create_department_aggregates t, e.id = s) ↔ s ∈ (dept_group_keys t).map (fun k => k.1) :=
  sorted_build_mem_ids (fun k : String × Nat => k.1) (fun k : String × Nat => k.2) (deptGval t) DeptEntity.id
    DeptEntity.years (fun e ys => { e with years := ys }) (deptMk t) _ (fun _ => rfl)
    (fun _ _ => rfl) (fun _ _ => rfl) (fun _ _ _ => rfl) (fun _ => rfl) (dept_group_keys t) s

theorem dept_years_eq (t : List Row) : ∀ e ∈ create_department_aggregates t,
    e.years = dictYears (fun k : String × Nat => k.1) (fun k : String × Nat => k.2)
      (deptGval t) (dept_group_keys t) e.id :=
  sorted_build_years (fun k : String × Nat => k.1) (fun k : String × Nat => k.2)
    (deptGval t) DeptEntity.id DeptEntity.years
    (fun e ys => { e with years := ys }) (deptMk t) _ (fun _ => rfl) (fun _ _ => rfl)
    (fun _ _ => rfl) (fun _ _ _ => rfl) (fun _ => rfl) (dept_group_keys t)

theorem dept_years_sums (t : List Row) : ∀ e ∈ create_department_aggregates t,
    (e.years.map (fun p => p.2.count)).sum =
      (t.filter (fun r => decide (r.department = e.id))).length ∧
    (e.years.map (fun p => p.2.amount)).sum =
      ((t.filter (fun r => decide (r.department = e.id))).map Row.amt).sum := by
  intro e he
  rw [dept_years_eq t e he, deptGval_eq t]
  exact dictYears_sums t (fun r => (r.department, r.year))
    (fun k : String × Nat => k.1) (fun k : String × Nat => k.2)
    (fun _ => rfl) (dept_group_keys t) (dept_group_keys_nodup t) (mem_dept_group_keys t)
    (fun k₁ _ k₂ _ hgid hy => Prod.ext hgid hy) e.id

/-! ## Agency level facts -/

theorem agency_group_keys_nodup (t : List Row) : (agency_group_keys t).Nodup := by
  unfold agency_group_keys
  exact (List.perm_insertionSort _ _).nodup_iff.mpr (List.nodup_dedup _)

theorem mem_agency_group_keys (t : List Row) (k : String × String × Nat) :
    k ∈ agency_group_keys t ↔ ∃ r ∈ t, (r.agency, r.department, r.year) = k := by
  unfold agency_group_keys
  rw [(List.perm_insertionSort _ _).mem_iff, List.mem_dedup, List.mem_map]

theorem agency_group_rows_eq (t : List Row) (k : String × String × Nat) :
    agency_group_rows t k = t.filter (fun r => decide ((r.agency, r.department, r.year) = k)) := by
  unfold agency_group_rows
  apply List.filter_congr
  intro r _
  rw [decide_eq_decide]
  simp [Prod.ext_iff]

theorem agencyGval_eq (t : List Row) :
    agencyGval t =
      fun k => rowsStats (t.filter (fun r => decide ((r.agency, r.department, r.year) = k))) := by
  funext k
  unfold agencyGval
  rw [agency_group_rows_eq]

theorem agency_char (t : List Row) : ∀ e ∈ create_agency_aggregates t,
    ∃ k ∈ agency_group_keys t, agencyId k = e.id ∧
      e = { agencyMk t k with
            years := dictYears agencyId (fun k : String × String × Nat => k.2.2)
              (agencyGval t) (agency_group_keys t) e.id } :=
  sorted_build_char agencyId (fun k : String × String × Nat => k.2.2)
    (agencyGval t) AgencyEntity.id AgencyEntity.years
    (fun e ys => { e with years := ys }) (agencyMk t) _ (fun _ => rfl) (fun _ _ => rfl)
    (fun _ _ => rfl) (fun _ _ _ => rfl) (fun _ => rfl) (agency_group_keys t)

theorem agency_ids_nodup (t : List Row) :
    ((create_agency_aggregates t).map AgencyEntity.id).Nodup :=
  sorted_build_ids_nodup agencyId (fun k : String × String × Nat => k.2.2)
    (agencyGval t) AgencyEntity.id AgencyEntity.years (fun e ys => { e with years := ys })
    (agencyMk t) _ (fun _ => rfl) (fun _ _ => rfl) (fun _ _ => rfl) (fun _ _ _ => rfl)
    (fun _ => rfl) (agency_group_keys t)

theorem agency_mem_ids (t : List Row) (s : String) :
    (∃ e ∈ create_agency_aggregates t, e.id = s) ↔ s ∈ (agency_group_keys t).map agencyId :=
  sorted_build_mem_ids agencyId (fun k : String × String × Nat => k.2.2)
    (agencyGval t) AgencyEntity.id AgencyEntity.years (fun e ys => { e with years := ys })
    (agencyMk t) _ (fun _ => rfl) (fun _ _ => rfl) (fun _ _ => rfl) (fun _ _ _ => rfl)
    (fun _ => rfl) (agency_group_keys t) s

theorem agency_years_eq (t : List Row) : ∀ e ∈ create_agency_aggregates t,
    e.years = dictYears agencyId (fun k : String × String × Nat => k.2.2)
      (agencyGval t) (agency_group_keys t) e.id :=
  sorted_build_years agencyId (fun k : String × String × Nat => k.2.2)
    (agencyGval t) AgencyEntity.id AgencyEntity.years (fun e ys => { e with years := ys })
    (agencyMk t) _ (fun _ => rfl) (fun _ _ => rfl) (fun _ _ => rfl) (fun _ _ _ => rfl)
    (fun _ => rfl) (agency_group_keys t)

theorem agency_years_sums (t : List Row)
    (hinj : ∀ k₁ ∈ agency_group_keys t, ∀ k₂ ∈ agency_group_keys t,
      agencyId k₁ = agencyId k₂ → k₁.2.2 = k₂.2.2 → k₁ = k₂) :
    ∀ e ∈ create_agency_aggregates t,
      (e.years.map (fun p => p.2.count)).sum =
        (t.filter (fun r => decide (r.department ++ "-" ++ r.agency = e.id))).length ∧
      (e.years.map (fun p => p.2.amount)).sum =
        ((t.filter (fun r => decide (r.department ++ "-" ++ r.agency = e.id))).map Row.amt).sum := by
  intro e he
  rw [agency_years_eq t e he, agencyGval_eq t]
  exact dictYears_sums t (fun r => (r.agency, r.department, r.year)) agencyId
    (fun k : String × String × Nat => k.2.2) (fun _ => rfl) (agency_group_keys t)
    (agency_group_keys_nodup t) (mem_agency_group_keys t) hinj e.id

/-! ## Yearly totals facts -/

theorem yearly_totals_char (t : List Row) : ∀ yt ∈ create_yearly_totals t,
    yt.count = (t.filter (fun r => decide (r.year = yt.year))).length ∧
    yt.amount = ((t.filter (fun r => decide (r.year = yt.year))).map Row.amt).sum := by
  intro yt hyt
  unfold create_yearly_totals at hyt
  have h2 := (List.perm_insertionSort _ _).mem_iff.mp hyt
  obtain ⟨y, _, rfl⟩ := List.mem_map.mp h2
  exact ⟨rfl, rfl⟩

theorem fund_group_keys_nodup (tf : List Row) : (fund_group_keys tf).Nodup := by
  unfold fund_group_keys
  exact (List.perm_insertionSort _ _).nodup_iff.mpr (List.nodup_dedup _)

theorem mem_fund_group_keys (tf : List Row) (k : String × String × String × Nat) :
    k ∈ fund_group_keys tf ↔
      ∃ r ∈ tf, (r.uacs_fundsubcat_dsc.getD "", r.department, r.agency, r.year) = k := by
  unfold fund_group_keys
  rw [(List.perm_insertionSort _ _).mem_iff, List.mem_dedup, List.mem_map]

theorem fund_group_rows_eq (tf : List Row) (k : String × String × String × Nat) :
    fund_group_rows tf k = tf.filter
      (fun r => decide ((r.uacs_fundsubcat_dsc.getD "", r.department, r.agency, r.year) = k)) := by
  unfold fund_group_rows
  apply List.filter_congr
  intro r _
  rw [decide_eq_decide]
  simp [Prod.ext_iff, and_assoc]

theorem fundGval_eq (tf : List Row) :
    fundGval tf = fun k => rowsStats (tf.filter
      (fun r => decide ((r.uacs_fundsubcat_dsc.getD "", r.department, r.agency, r.year) = k))) := by
  funext k
  unfold fundGval
  rw [fund_group_rows_eq]

theorem fund_char (t : List Row) : ∀ e ∈ create_fund_subcategory_aggregates t,
    ∃ k ∈ fund_group_keys (fund_filtered t), fundId k = e.id ∧
      e = { fundMk (fund_filtered t) k with
            years := dictYears fundId (fun k : String × String × String × Nat => k.2.2.2)
              (fundGval (fund_filtered t)) (fund_group_keys (fund_filtered t)) e.id } :=
  sorted_build_char fundId (fun k : String × String × String × Nat => k.2.2.2)
    (fundGval (fund_filtered t)) FundEntity.id FundEntity.years
    (fun e ys => { e with years := ys }) (fundMk (fund_filtered t)) _ (fun _ => rfl)
    (fun _ _ => rfl) (fun _ _ => rfl) (fun _ _ _ => rfl) (fun _ => rfl)
    (fund_group_keys (fund_filtered t))

theorem fund_ids_nodup (t : List Row) :
    ((create_fund_subcategory_aggregates t).map FundEntity.id).Nodup :=
  sorted_build_ids_nodup fundId (fun k : String × String × String × Nat => k.2.2.2)
    (fundGval (fund_filtered t)) FundEntity.id FundEntity.years
    (fun e ys => { e with years := ys }) (fundMk (fund_filtered t)) _ (fun _ => rfl)
    (fun _ _ => rfl) (fun _ _ => rfl) (fun _ _ _ => rfl) (fun _ => rfl)
    (fund_group_keys (fund_filtered t))

theorem fund_mem_ids (t : List Row) (s : String) :
    (∃ e ∈ create_fund_subcategory_aggregates t, e.id = s) ↔
      s ∈ (fund_group_keys (fund_filtered t)).map fundId :=
  sorted_build_mem_ids fundId (fun k : String × String × String × Nat => k.2.2.2)
    (fundGval (fund_filtered t)) FundEntity.id FundEntity.years
    (fun e ys => { e with years := ys }) (fundMk (fund_filtered t)) _ (fun _ => rfl)
    (fun _ _ => rfl) (fun _ _ => rfl) (fun _ _ _ => rfl) (fun _ => rfl)
    (fund_group_keys (fund_filtered t)) s

theorem fund_years_eq (t : List Row) : ∀ e ∈ create_fund_subcategory_aggregates t,
    e.years = dictYears fundId (fun k : String × String × String × Nat => k.2.2.2)
      (fundGval (fund_filtered t)) (fund_group_keys (fund_filtered t)) e.id :=
  sorted_build_years fundId (fun k : String × String × String × Nat => k.2.2.2)
    (fundGval (fund_filtered t)) FundEntity.id FundEntity.years
    (fun e ys => { e with years := ys }) (fundMk (fund_filtered t)) _ (fun _ => rfl)
    (fun _ _ => rfl) (fun _ _ => rfl) (fun _ _ _ => rfl) (fun _ => rfl)
    (fund_group_keys (fund_filtered t))

theorem fund_years_sums (t : List Row)
    (hinj : ∀ k₁ ∈ fund_group_keys (fund_filtered t), ∀ k₂ ∈ fund_group_keys (fund_filtered t),
      fundId k₁ = fundId k₂ → k₁.2.2.2 = k₂.2.2.2 → k₁ = k₂) :
    ∀ e ∈ create_fund_subcategory_aggregates t,
      (e.years.map (fun p => p.2.count)).sum =
        ((fund_filtered t).filter (fun r =>
          decide (r.department ++ "-" ++ r.agency ++ "-" ++ r.uacs_fundsubcat_dsc.getD "" = e.id))).length ∧
      (e.years.map (fun p => p.2.amount)).sum =
        (((fund_filtered t).filter (fun r =>
          decide (r.department ++ "-" ++ r.agency ++ "-" ++ r.uacs_fundsubcat_dsc.getD "" = e.id))).map Row.amt).sum := by
  intro e he
  rw [fund_years_eq t e he, fundGval_eq (fund_filtered t)]
  exact dictYears_sums (fund_filtered t)
    (fun r => (r.uacs_fundsubcat_dsc.getD "", r.department, r.agency, r.year)) fundId
    (fun k : String × String × String × Nat => k.2.2.2) (fun _ => rfl)
    (fund_group_keys (fund_filtered t)) (fund_group_keys_nodup (fund_filtered t))
    (mem_fund_group_keys (fund_filtered t)) hinj e.id

/-! ## Expense level facts -/

theorem exp_group_keys_nodup (tf : List Row) : (exp_group_keys tf).Nodup := by
  unfold exp_group_keys
  exact (List.perm_insertionSort _ _).nodup_iff.mpr (List.nodup_dedup _)

theorem mem_exp_group_keys (tf : List Row) (k : String × String × String × String × Nat) :
    k ∈ exp_group_keys tf ↔
      ∃ r ∈ tf, (r.uacs_exp_cd, r.uacs_exp_dsc.getD "", r.department, r.agency, r.year) = k := by
  unfold exp_group_keys
  rw [(List.perm_insertionSort _ _).mem_iff, List.mem_dedup, List.mem_map]

theorem exp_group_rows_eq (tf : List Row) (k : String × String × String × String × Nat) :
    exp_group_rows tf k = tf.filter (fun r =>
      decide ((r.uacs_exp_cd, r.uacs_exp_dsc.getD "", r.department, r.agency, r.year) = k)) := by
  unfold exp_group_rows
  apply List.filter_congr
  intro r _
  rw [decide_eq_decide]
  simp [Prod.ext_iff, and_assoc]

theorem expGval_eq (tf : List Row) :
    expGval tf = fun k => rowsStats (tf.filter (fun r =>
      decide ((r.uacs_exp_cd, r.uacs_exp_dsc.getD "", r.department, r.agency, r.year) = k))) := by
  funext k
  unfold expGval
  rw [exp_group_rows_eq]

theorem exp_char (t : List Row) : ∀ e ∈ create_expense_aggregates t,
    ∃ k ∈ exp_group_keys (exp_filtered t), expId k = e.id ∧
      e = { expMk (exp_filtered t) k with
            years := dictYears expId (fun k : String × String × String × String × Nat => k.2.2.2.2)
              (expGval (exp_filtered t)) (exp_group_keys (exp_filtered t)) e.id } :=
  sorted_build_char expId (fun k : String × String × String × String × Nat => k.2.2.2.2)
    (expGval (exp_filtered t)) ExpenseEntity.id ExpenseEntity.years
    (fun e ys => { e with years := ys }) (expMk (exp_filtered t)) _ (fun _ => rfl)
    (fun _ _ => rfl) (fun _ _ => rfl) (fun _ _ _ => rfl) (fun _ => rfl)
    (exp_group_keys (exp_filtered t))

theorem exp_ids_nodup (t : List Row) :
    ((create_expense_aggregates t).map ExpenseEntity.id).Nodup :=
  sorted_build_ids_nodup expId (fun k : String × String × String × String × Nat => k.2.2.2.2)
    (expGval (exp_filtered t)) ExpenseEntity.id ExpenseEntity.years
    (fun e ys => { e with years := ys }) (expMk (exp_filtered t)) _ (fun _ => rfl)
    (fun _ _ => rfl) (fun _ _ => rfl) (fun _ _ _ => rfl) (fun _ => rfl)
    (exp_group_keys (exp_filtered t))

theorem exp_mem_ids (t : List Row) (s : String) :
    (∃ e ∈ create_expense_aggregates t, e.id = s) ↔
      s ∈ (exp_group_keys (exp_filtered t)).map expId :=
  sorted_build_mem_ids expId (fun k : String × String × String × String × Nat => k.2.2.2.2)
    (expGval (exp_filtered t)) ExpenseEntity.id ExpenseEntity.years
    (fun e ys => { e with years := ys }) (expMk (exp_filtered t)) _ (fun _ => rfl)
    (fun _ _ => rfl) (fun _ _ => rfl) (fun _ _ _ => rfl) (fun _ => rfl)
    (exp_group_keys (exp_filtered t)) s

theorem exp_years_eq (t : List Row) : ∀ e ∈ create_expense_aggregates t,
    e.years = dictYears expId (fun k : String × String × String × String × Nat => k.2.2.2.2)
      (expGval (exp_filtered t)) (exp_group_keys (exp_filtered t)) e.id :=
  sorted_build_years expId (fun k : String × String × String × String × Nat => k.2.2.2.2)
    (expGval (exp_filtered t)) ExpenseEntity.id ExpenseEntity.years
    (fun e ys => { e with years := ys }) (expMk (exp_filtered t)) _ (fun _ => rfl)
    (fun _ _ => rfl) (fun _ _ => rfl) (fun _ _ _ => rfl) (fun _ => rfl)
    (exp_group_keys (exp_filtered t))

theorem exp_years_sums (t : List Row)
    (hinj : ∀ k₁ ∈ exp_group_keys (exp_filtered t), ∀ k₂ ∈ exp_group_keys (exp_filtered t),
      expId k₁ = expId k₂ → k₁.2.2.2.2 = k₂.2.2.2.2 → k₁ = k₂) :
    ∀ e ∈ create_expense_aggregates t,
      (e.years.map (fun p => p.2.count)).sum =
        ((exp_filtered t).filter (fun r =>
          decide (r.department ++ "-" ++ r.agency ++ "-" ++ r.uacs_exp_cd = e.id))).length ∧
      (e.years.map (fun p => p.2.amount)).sum =
        (((exp_filtered t).filter (fun r =>
          decide (r.department ++ "-" ++ r.agency ++ "-" ++ r.uacs_exp_cd = e.id))).map Row.amt).sum := by
  intro e he
  rw [exp_years_eq t e he, expGval_eq (exp_filtered t)]
  exact dictYears_sums (exp_filtered t)
    (fun r => (r.uacs_exp_cd, r.uacs_exp_dsc.getD "", r.department, r.agency, r.year)) expId
    (fun k : String × String × String × String × Nat => k.2.2.2.2) (fun _ => rfl)
    (exp_group_keys (exp_filtered t)) (exp_group_keys_nodup (exp_filtered t))
    (mem_exp_group_keys (exp_filtered t)) hinj e.id

/-! ## Object level facts -/

theorem obj_group_keys_nodup (tf : List Row) : (obj_group_keys tf).Nodup := by
  unfold obj_group_keys
  exact (List.perm_insertionSort _ _).nodup_iff.mpr (List.nodup_dedup _)

theorem mem_obj_group_keys (tf : List Row) (k : String × String × String × String × Nat) :
    k ∈ obj_group_keys tf ↔
      ∃ r ∈ tf, (r.uacs_sobj_cd, r.uacs_sobj_dsc.getD "", r.department, r.agency, r.year) = k := by
  unfold obj_group_keys
  rw [(List.perm_insertionSort _ _).mem_iff, List.mem_dedup, List.mem_map]

theorem obj_group_rows_eq (tf : List Row) (k : String × String × String × String × Nat) :
    obj_group_rows tf k = tf.filter (fun r =>
      decide ((r.uacs_sobj_cd, r.uacs_sobj_dsc.getD "", r.department, r.agency, r.year) = k)) := by
  unfold obj_group_rows
  apply List.filter_congr
  intro r _
  rw [decide_eq_decide]
  simp [Prod.ext_iff, and_assoc]

theorem objGval_eq (tf : List Row) :
    objGval tf = fun k => rowsStats (tf.filter (fun r =>
      decide ((r.uacs_sobj_cd, r.uacs_sobj_dsc.getD "", r.department, r.agency, r.year) = k))) := by
  funext k
  unfold objGval
  rw [obj_group_rows_eq]

theorem obj_char (t : List Row) : ∀ e ∈ create_object_aggregates t,
    ∃ k ∈ obj_group_keys (obj_filtered t), objId k = e.id ∧
      e = { objMk (obj_filtered t) k with
            years := dictYears objId (fun k : String × String × String × String × Nat => k.2.2.2.2)
              (objGval (obj_filtered t)) (obj_group_keys (obj_filtered t)) e.id } :=
  sorted_build_char objId (fun k : String × String × String × String × Nat => k.2.2.2.2)
    (objGval (obj_filtered t)) ObjectEntity.id ObjectEntity.years
    (fun e ys => { e with years := ys }) (objMk (obj_filtered t)) _ (fun _ => rfl)
    (fun _ _ => rfl) (fun _ _ => rfl) (fun _ _ _ => rfl) (fun _ => rfl)
    (obj_group_keys (obj_filtered t))

theorem obj_ids_nodup (t : List Row) :
    ((create_object_aggregates t).map ObjectEntity.id).Nodup :=
  sorted_build_ids_nodup objId (fun k : String × String × String × String × Nat => k.2.2.2.2)
    (objGval (obj_filtered t)) ObjectEntity.id ObjectEntity.years
    (fun e ys => { e with years := ys }) (objMk (obj_filtered t)) _ (fun _ => rfl)
    (fun _ _ => rfl) (fun _ _ => rfl) (fun _ _ _ => rfl) (fun _ => rfl)
    (obj_group_keys (obj_filtered t))

theorem obj_mem_ids (t : List Row) (s : String) :
    (∃ e ∈ create_object_aggregates t, e.id = s) ↔
      s ∈ (obj_group_keys (obj_filtered t)).map objId :=
  sorted_build_mem_ids objId (fun k : String × String × String × String × Nat => k.2.2.2.2)
    (objGval (obj_filtered t)) ObjectEntity.id ObjectEntity.years
    (fun e ys => { e with years := ys }) (objMk (obj_filtered t)) _ (fun _ => rfl)
    (fun _ _ => rfl) (fun _ _ => rfl) (fun _ _ _ => rfl) (fun _ => rfl)
    (obj_group_keys (obj_filtered t)) s

theorem obj_years_eq (t : List Row) : ∀ e ∈ create_object_aggregates t,
    e.years = dictYears objId (fun k : String × String × String × String × Nat => k.2.2.2.2)
      (objGval (obj_filtered t)) (obj_group_keys (obj_filtered t)) e.id :=
  sorted_build_years objId (fun k : String × String × String × String × Nat => k.2.2.2.2)
    (objGval (obj_filtered t)) ObjectEntity.id ObjectEntity.years
    (fun e ys => { e with years := ys }) (objMk (obj_filtered t)) _ (fun _ => rfl)
    (fun _ _ => rfl) (fun _ _ => rfl) (fun _ _ _ => rfl) (fun _ => rfl)
    (obj_group_keys (obj_filtered t))

theorem obj_years_sums (t : List Row)
    (hinj : ∀ k₁ ∈ obj_group_keys (obj_filtered t), ∀ k₂ ∈ obj_group_keys (obj_filtered t),
      objId k₁ = objId k₂ → k₁.2.2.2.2 = k₂.2.2.2.2 → k₁ = k₂) :
    ∀ e ∈ create_object_aggregates t,
      (e.years.map (fun p => p.2.count)).sum =
        ((obj_filtered t).filter (fun r =>
          decide (r.department ++ "-" ++ r.agency ++ "-" ++ r.uacs_sobj_cd = e.id))).length ∧
      (e.years.map (fun p => p.2.amount)).sum =
        (((obj_filtered t).filter (fun r =>
          decide (r.department ++ "-" ++ r.agency ++ "-" ++ r.uacs_sobj_cd = e.id))).map Row.amt).sum := by
  intro e he
  rw [obj_years_eq t e he, objGval_eq (obj_filtered t)]
  exact dictYears_sums (obj_filtered t)
    (fun r => (r.uacs_sobj_cd, r.uacs_sobj_dsc.getD "", r.department, r.agency, r.year)) objId
    (fun k : String × String × String × String × Nat => k.2.2.2.2) (fun _ => rfl)
    (obj_group_keys (obj_filtered t)) (obj_group_keys_nodup (obj_filtered t))
    (mem_obj_group_keys (obj_filtered t)) hinj e.id

/-! ## The comparison orders are total and transitive -/

theorem strLtData_trans : ∀ l₁ l₂ l₃ : List Char,
    strLtData l₁ l₂ = true → strLtData l₂ l₃ = true → strLtData l₁ l₃ = true
  | [], [], _, h₁, _ => by simp [strLtData] at h₁
  | [], _ :: _, [], _, h₂ => by simp [strLtData] at h₂
  | [], _ :: _, _ :: _, _, _ => rfl
  | _ :: _, [], _, h₁, _ => by simp [strLtData] at h₁
  | _ :: _, _ :: _, [], _, h₂ => by simp [strLtData] at h₂
  | a :: as, b :: bs, c :: cs, h₁, h₂ => by
    rw [strLtData] at h₁ h₂ ⊢
    by_cases hab : a < b
    · by_cases hbc : b < c
      · rw [if_pos (lt_trans hab hbc)]
      · rw [if_neg hbc] at h₂
        by_cases hcb : c < b
        · rw [if_pos hcb] at h₂
          exact absurd h₂ (by simp)
        · have hbceq : b = c := le_antisymm (le_of_not_lt hcb) (le_of_not_lt hbc)
          subst hbceq
          rw [if_pos hab]
    · rw [if_neg hab] at h₁
      by_cases hba : b < a
      · rw [if_pos hba] at h₁
        exact absurd h₁ (by simp)
      · rw [if_neg hba] at h₁
        have habeq : a = b := le_antisymm (le_of_not_lt hba) (le_of_not_lt hab)
        subst habeq
        by_cases hac : a < c
        · rw [if_pos hac]
        · rw [if_neg hac] at h₂ ⊢
          by_cases hca : c < a
          · rw [if_pos hca] at h₂
            exact absurd h₂ (by simp)
          · rw [if_neg hca] at h₂ ⊢
            exact strLtData_trans as bs cs h₁ h₂

theorem strLtData_eq_of_not : ∀ l₁ l₂ : List Char,
    strLtData l₁ l₂ = false → strLtData l₂ l₁ = false → l₁ = l₂
  | [], [], _, _ => rfl
  | [], _ :: _, h₁, _ => by simp [strLtData] at h₁
  | _ :: _, [], _, h₂ => by simp [strLtData] at h₂
  | a :: as, b :: bs, h₁, h₂ => by
    rw [strLtData] at h₁ h₂
    by_cases hab : a < b
    · rw [if_pos hab] at h₁
      exact absurd h₁ (by simp)
    · by_cases hba : b < a
      · rw [if_pos hba] at h₂
        exact absurd h₂ (by simp)
      · rw [if_neg hab, if_neg hba] at h₁
        rw [if_neg hba, if_neg hab] at h₂
        have habeq : a = b := le_antisymm (le_of_not_lt hba) (le_of_not_lt hab)
        subst habeq
        rw [strLtData_eq_of_not as bs h₁ h₂]

theorem pyStrLt_trans (s u v : String) (h₁ : pyStrLt s u = true) (h₂ : pyStrLt u v = true) :
    pyStrLt s v = true :=
  strLtData_trans _ _ _ h₁ h₂

theorem pyStrLt_conn (s u : String) (h₁ : pyStrLt s u = false) (h₂ : pyStrLt u s = false) :
    s = u := by
  have hd : s.data = u.data := strLtData_eq_of_not _ _ h₁ h₂
  exact congrArg String.mk hd

theorem pyStrLe_total (s u : String) : pyStrLe s u = true ∨ pyStrLe u s = true := by
  unfold pyStrLe
  by_cases h : pyStrLt s u = true
  · left
    simp [h]
  · by_cases h2 : pyStrLt u s = true
    · right
      simp [h2]
    · left
      have hsu : s = u := pyStrLt_conn s u (by simpa using h) (by simpa using h2)
      simp [hsu]

theorem pyStrLe_trans (s u v : String) (h₁ : pyStrLe s u = true) (h₂ : pyStrLe u v = true) :
    pyStrLe s v = true := by
  unfold pyStrLe at h₁ h₂ ⊢
  simp only [Bool.or_eq_true, decide_eq_true_eq] at h₁ h₂ ⊢
  rcases h₁ with h₁ | rfl
  · rcases h₂ with h₂ | rfl
    · exact Or.inl (pyStrLt_trans _ _ _ h₁ h₂)
    · exact Or.inl h₁
  · exact h₂

theorem lexB_trans {α β : Type} (ltA eqA : α → α → Bool) (leB : β → β → Bool)
    (hlt : ∀ a b c, ltA a b = true → ltA b c = true → ltA a c = true)
    (heq : ∀ a b, eqA a b = true ↔ a = b)
    (hB : ∀ x y z, leB x y = true → leB y z = true → leB x z = true) :
    ∀ p q u, lexB ltA eqA leB p q = true → lexB ltA eqA leB q u = true →
      lexB ltA eqA leB p u = true := by
  intro p q u h₁ h₂
  unfold lexB at h₁ h₂ ⊢
  simp only [Bool.or_eq_true, Bool.and_eq_true, heq] at h₁ h₂ ⊢
  rcases h₁ with h₁ | ⟨he₁, hb₁⟩
  · rcases h₂ with h₂ | ⟨he₂, hb₂⟩
    · exact Or.inl (hlt _ _ _ h₁ h₂)
    · rw [← he₂]
      exact Or.inl h₁
  · rcases h₂ with h₂ | ⟨he₂, hb₂⟩
    · rw [he₁]
      exact Or.inl h₂
    · exact Or.inr ⟨he₁.trans he₂, hB _ _ _ hb₁ hb₂⟩

theorem lexB_total {α β : Type} (ltA eqA : α → α → Bool) (leB : β → β → Bool)
    (heq : ∀ a b, eqA a b = true ↔ a = b)
    (hconn : ∀ a b, ltA a b = false → ltA b a = false → a = b)
    (hB : ∀ x y, leB x y = true ∨ leB y x = true) :
    ∀ p q, lexB ltA eqA leB p q = true ∨ lexB ltA eqA leB q p = true := by
  intro p q
  unfold lexB
  simp only [Bool.or_eq_true, Bool.and_eq_true, heq]
  by_cases h₁ : ltA p.1 q.1 = true
  · exact Or.inl (Or.inl h₁)
  · by_cases h₂ : ltA q.1 p.1 = true
    · exact Or.inr (Or.inl h₂)
    · have he : p.1 = q.1 := hconn _ _ (by simpa using h₁) (by simpa using h₂)
      rcases hB p.2 q.2 with hb | hb
      · exact Or.inl (Or.inr ⟨he, hb⟩)
      · exact Or.inr (Or.inr ⟨he.symm, hb⟩)

theorem strEqB_iff (s u : String) : strEqB s u = true ↔ s = u := by
  simp [strEqB]

theorem pairLe_total (p q : String × String) : pairLe p q = true ∨ pairLe q p = true :=
  lexB_total pyStrLt strEqB pyStrLe strEqB_iff pyStrLt_conn pyStrLe_total p q

theorem pairLe_trans (p q u : String × String) (h₁ : pairLe p q = true)
    (h₂ : pairLe q u = true) : pairLe p u = true :=
  lexB_trans pyStrLt strEqB pyStrLe pyStrLt_trans strEqB_iff pyStrLe_trans p q u h₁ h₂

theorem tripleLe_total (p q : String × String × String) :
    tripleLe p q = true ∨ tripleLe q p = true :=
  lexB_total pyStrLt strEqB pairLe strEqB_iff pyStrLt_conn pairLe_total p q

theorem tripleLe_trans (p q u : String × String × String) (h₁ : tripleLe p q = true)
    (h₂ : tripleLe q u = true) : tripleLe p u = true :=
  lexB_trans pyStrLt strEqB pairLe pyStrLt_trans strEqB_iff pairLe_trans p q u h₁ h₂

theorem natLe_total (m n : Nat) : natLe m n = true ∨ natLe n m = true := by
  unfold natLe
  simp only [Nat.ble_eq]
  omega

theorem natLe_trans (m n p : Nat) (h₁ : natLe m n = true) (h₂ : natLe n p = true) :
    natLe m p = true := by
  unfold natLe at h₁ h₂ ⊢
  simp only [Nat.ble_eq] at h₁ h₂ ⊢
  omega

/-! ## Year entry membership helpers -/

theorem str_append_isPre (s x : String) : s.data <+: (s ++ x).data := ⟨x.data, rfl⟩

theorem find?_max_of_sorted {α : Type} (amt : α → Rat) (p : α → Bool) :
    ∀ l : List α, l.Pairwise (fun x y => amt y ≤ amt x) → ∀ x, l.find? p = some x →
      x ∈ l ∧ p x = true ∧ ∀ q ∈ l, p q = true → amt q ≤ amt x
  | [], _, x, h => by simp at h
  | a :: l, hp, x, h => by
    by_cases hpa : p a = true
    · rw [List.find?_cons_of_pos _ hpa] at h
      injection h with h
    -- x = a
      subst h
      refine ⟨List.mem_cons_self _ _, hpa, ?_⟩
      intro q hq _
      rcases List.mem_cons.mp hq with rfl | hq
      · exact le_refl _
      · exact (List.pairwise_cons.mp hp).1 q hq
    · rw [List.find?_cons_of_neg _ hpa] at h
      obtain ⟨hm, hpx, hall⟩ := find?_max_of_sorted amt p l (List.pairwise_cons.mp hp).2 x h
      refine ⟨List.mem_cons_of_mem _ hm, hpx, ?_⟩
      intro q hq hpq
      rcases List.mem_cons.mp hq with rfl | hq
      · exact absurd hpq hpa
      · exact hall q hq hpq

/-- The ranked description-amount pairs the department resolver scans. -/
def dept_desc_pairs (t : List Row) (d : String) : List (String × Rat) :=
  desc_amounts (t.filter (fun r => decide (r.department = d))) Row.uacs_dpt_dsc

theorem dept_desc_pairs_sorted (t : List Row) (d : String) :
    (dept_desc_pairs t d).Pairwise (fun p q : String × Rat => q.2 ≤ p.2) := by
  unfold dept_desc_pairs desc_amounts
  exact @List.sorted_insertionSort (String × Rat) (fun p q => q.2 ≤ p.2) _
    ⟨fun a b => le_total b.2 a.2⟩ ⟨fun a b c h₁ h₂ => le_trans h₂ h₁⟩ _

/-- The ranked description-amount pairs the agency resolver scans for
one (department, agency) group. -/
def agency_desc_pairs (t : List Row) (k : String × String) : List (String × Rat) :=
  desc_amounts (t.filter (fun r => decide (r.department = k.1 ∧ r.agency = k.2)))
    Row.uacs_agy_dsc

theorem agency_desc_pairs_sorted (t : List Row) (k : String × String) :
    (agency_desc_pairs t k).Pairwise (fun p q : String × Rat => q.2 ≤ p.2) := by
  unfold agency_desc_pairs desc_amounts
  exact @List.sorted_insertionSort (String × Rat) (fun p q => q.2 ≤ p.2) _
    ⟨fun a b => le_total b.2 a.2⟩ ⟨fun a b c h₁ h₂ => le_trans h₂ h₁⟩ _

/-- The value the agency resolver computes for one (department, agency)
group in isolation: first institution-looking description by descending
amount, else first usable one, else str() of the group's first
description. -/
def agency_group_desc (t : List Row) (k : String × String) : String :=
  match (agency_desc_pairs t k).find? (fun p => is_department_name p.1) with
  | some p => p.1
  | none =>
    match (agency_desc_pairs t k).find? (fun p => desc_usable p.1) with
    | some p => p.1
    | none =>
      match (t.filter (fun r => decide (r.department = k.1 ∧ r.agency = k.2))).head? with
      | some r => pyStr r.uacs_agy_dsc
      | none => "nan"

/-- The tail of the agency dict loop body, after the institution-name
pass has produced the intermediate dict m1. -/
def agency_desc_step2 (t : List Row) (m1 : List (String × String)) (k : String × String) :
    List (String × String) :=
  if m1.any (fun q => decide (q.1 = k.1 ++ "-" ++ k.2)) then m1
  else
    match (agency_desc_pairs t k).find? (fun p => desc_usable p.1) with
    | some p => m1 ++ [(k.1 ++ "-" ++ k.2, p.1)]
    | none =>
      match (t.filter (fun r => decide (r.department = k.1 ∧ r.agency = k.2))).head? with
      | some r => m1 ++ [(k.1 ++ "-" ++ k.2, pyStr r.uacs_agy_dsc)]
      | none => m1 ++ [(k.1 ++ "-" ++ k.2, "nan")]

/-- The whole agency dict loop body for one group key. -/
def agency_desc_step (t : List Row) (m : List (String × String)) (k : String × String) :
    List (String × String) :=
  agency_desc_step2 t
    (match (agency_desc_pairs t k).find? (fun p => is_department_name p.1) with
     | some p => assocSet m (k.1 ++ "-" ++ k.2) p.1
     | none => m) k

/-- When the composite id is not yet in the dict, one loop iteration
appends exactly the group's own resolution. -/
theorem agency_desc_step_fresh (t : List Row) (m : List (String × String))
    (k : String × String) (hfr : ∀ q ∈ m, q.1 ≠ k.1 ++ "-" ++ k.2) :
    agency_desc_step t m k = m ++ [(k.1 ++ "-" ++ k.2, agency_group_desc t k)] := by
  have hany : m.any (fun q => decide (q.1 = k.1 ++ "-" ++ k.2)) = false := by
    rw [List.any_eq_false]
    intro q hq
    simpa using hfr q hq
  unfold agency_desc_step agency_group_desc
  cases hfind₁ : (agency_desc_pairs t k).find? (fun p => is_department_name p.1) with
  | some p =>
    have hset : assocSet m (k.1 ++ "-" ++ k.2) p.1 = m ++ [(k.1 ++ "-" ++ k.2, p.1)] := by
      unfold assocSet
      rw [hany]
      simp
    show agency_desc_step2 t (assocSet m (k.1 ++ "-" ++ k.2) p.1) k =
      m ++ [(k.1 ++ "-" ++ k.2, p.1)]
    rw [hset]
    unfold agency_desc_step2
    rw [if_pos (by simp)]
  | none =>
    show agency_desc_step2 t m k = m ++ [(k.1 ++ "-" ++ k.2,
      match (agency_desc_pairs t k).find? (fun p => desc_usable p.1) with
      | some p => p.1
      | none =>
        match (t.filter (fun r => decide (r.department = k.1 ∧ r.agency = k.2))).head? with
        | some r => pyStr r.uacs_agy_dsc
        | none => "nan")]
    unfold agency_desc_step2
    rw [if_neg (by rw [hany]; simp)]
    cases hfind₂ : (agency_desc_pairs t k).find? (fun p => desc_usable p.1) with
    | some p => rfl
    | none =>
      cases hh : (t.filter (fun r => decide (r.department = k.1 ∧ r.agency = k.2))).head? with
      | some r => rfl
      | none => rfl

/-- Folding the loop over keys with pairwise-distinct composite ids
appends each key's own resolution, in key order. -/
theorem agency_desc_foldl_eq (t : List Row) :
    ∀ (keys : List (String × String)) (m : List (String × String)),
      (∀ k ∈ keys, ∀ q ∈ m, q.1 ≠ k.1 ++ "-" ++ k.2) →
      (keys.map (fun k => k.1 ++ "-" ++ k.2)).Nodup →
      keys.foldl (agency_desc_step t) m =
        m ++ keys.map (fun k => (k.1 ++ "-" ++ k.2, agency_group_desc t k))
  | [], m, _, _ => by simp
  | k :: keys, m, hfr, hnd => by
    have h1 : agency_desc_step t m k = m ++ [(k.1 ++ "-" ++ k.2, agency_group_desc t k)] :=
      agency_desc_step_fresh t m k (fun q hq => hfr k (List.mem_cons_self k keys) q hq)
    have hfr' : ∀ k' ∈ keys, ∀ q ∈ m ++ [(k.1 ++ "-" ++ k.2, agency_group_desc t k)],
        q.1 ≠ k'.1 ++ "-" ++ k'.2 := by
      intro k' hk' q hq
      rcases List.mem_append.mp hq with hqm | hqs
      · exact hfr k' (List.mem_cons_of_mem _ hk') q hqm
      · have hq1 : q = (k.1 ++ "-" ++ k.2, agency_group_desc t k) :=
          List.mem_singleton.mp hqs
        rw [hq1]
        intro heq
        have heq' : k.1 ++ "-" ++ k.2 = k'.1 ++ "-" ++ k'.2 := heq
        have hmem : k'.1 ++ "-" ++ k'.2 ∈ keys.map (fun k => k.1 ++ "-" ++ k.2) :=
          List.mem_map_of_mem (fun k => k.1 ++ "-" ++ k.2) hk'
        rw [← heq'] at hmem
        exact (List.nodup_cons.mp hnd).1 hmem
    have h2 := agency_desc_foldl_eq t keys
      (m ++ [(k.1 ++ "-" ++ k.2, agency_group_desc t k)]) hfr' (List.nodup_cons.mp hnd).2
    rw [List.foldl_cons, h1, h2, List.map_cons]
    simp

theorem agency_desc_keys_nodup (t : List Row) : (agency_desc_keys t).Nodup := by
  unfold agency_desc_keys
  exact (List.perm_insertionSort _ _).nodup_iff.mpr (List.nodup_dedup _)

/-- Under composite-id injectivity, the agency description dict is
exactly the per-group resolutions, keyed by composite id. -/
theorem agency_descriptions_map (t : List Row)
    (hinj : ∀ k₁ ∈ agency_desc_keys t, ∀ k₂ ∈ agency_desc_keys t,
      k₁.1 ++ "-" ++ k₁.2 = k₂.1 ++ "-" ++ k₂.2 → k₁ = k₂) :
    agency_descriptions t =
      (agency_desc_keys t).map (fun k => (k.1 ++ "-" ++ k.2, agency_group_desc t k)) := by
  have hstep : agency_descriptions t = (agency_desc_keys t).foldl (agency_desc_step t) [] :=
    rfl
  rw [hstep, agency_desc_foldl_eq t (agency_desc_keys t) []
    (fun _ _ q hq => absurd hq (List.not_mem_nil q))
    (List.Nodup.map_on hinj (agency_desc_keys_nodup t))]
  rfl

/-- find? on a composite-id-keyed map with distinct ids returns the
entry of the looked-up key. -/
theorem find?_cid_map {β : Type} (g : String × String → β) :
    ∀ (keys : List (String × String)) (k : String × String),
      (keys.map (fun k' => k'.1 ++ "-" ++ k'.2)).Nodup → k ∈ keys →
      (keys.map (fun k' => (k'.1 ++ "-" ++ k'.2, g k'))).find?
        (fun q => decide (q.1 = k.1 ++ "-" ++ k.2)) = some (k.1 ++ "-" ++ k.2, g k)
  | [], k, _, hk => absurd hk (List.not_mem_nil k)
  | a :: keys, k, hnd, hk => by
    rcases List.mem_cons.mp hk with rfl | hk'
    · rw [List.map_cons, List.find?_cons_of_pos _ (by simp)]
    · have hne : ¬(a.1 ++ "-" ++ a.2 = k.1 ++ "-" ++ k.2) := by
        intro heq
        have hmem : k.1 ++ "-" ++ k.2 ∈ keys.map (fun k' => k'.1 ++ "-" ++ k'.2) :=
          List.mem_map_of_mem (fun k' => k'.1 ++ "-" ++ k'.2) hk'
        rw [← heq] at hmem
        exact (List.nodup_cons.mp hnd).1 hmem
      rw [List.map_cons, List.find?_cons_of_neg _ (by simpa using hne)]
      exact find?_cid_map g keys k (List.nodup_cons.mp hnd).2 hk'

/-- Under composite-id injectivity, the description an agency entity
receives is its own group's resolution. -/
theorem agency_desc_resolved (t : List Row)
    (hinj : ∀ k₁ ∈ agency_desc_keys t, ∀ k₂ ∈ agency_desc_keys t,
      k₁.1 ++ "-" ++ k₁.2 = k₂.1 ++ "-" ++ k₂.2 → k₁ = k₂)
    (k : String × String) (hk : k ∈ agency_desc_keys t) :
    agency_desc_for t k.1 k.2 = agency_group_desc t k := by
  unfold agency_desc_for
  rw [agency_descriptions_map t hinj,
    find?_cid_map (agency_group_desc t) (agency_desc_keys t) k
      (List.Nodup.map_on hinj (agency_desc_keys_nodup t)) hk]

/-! ## Concrete tables for counterexamples and witnesses -/

/-- A well-behaved single line item (fund code 101, fund description
"Special Account"). -/
def rowC1 : Row :=
  { department := "01", agency := "001", uacs_dpt_dsc := some "Department of Testing (DOT)",
    uacs_agy_dsc := some "Agency One (AO)", fundcd := "101",
    uacs_fundsubcat_dsc := some "Special Account", uacs_exp_cd := "5020101000",
    uacs_exp_dsc := some "Traveling Expenses", uacs_sobj_cd := "5020101001",
    uacs_sobj_dsc := some "Travel Local", year := 2024, amt := 5 }

/-- The fund sub-category entity emitted for [rowC1]. -/
def fundEntC1 : FundEntity :=
  { id := "01-001-Special Account", slug := "special-account",
    description := "Special Account", department_id := "01", agency_id := "01-001",
    years := [(2024, ⟨1, 5⟩)] }

/-- The agency entity emitted for [rowC1]. -/
def agencyEntC1 : AgencyEntity :=
  { id := "01-001", slug := "agency-one-ao", agency_code := "001",
    description := "Agency One (AO)", department_id := "01",
    years := [(2024, ⟨1, 5⟩)] }

/-! ## C1 -/

/-- C1 (amended): every emitted id is the composite key built from the
row columns — the department code for a department; department-agency
for an agency; department-agency-code for an expense or object entity;
but for a fund sub-category entity the last component is the fund
sub-category description (the fund code column is never read). -/
theorem C1_composite_ids (t : List Row) :
    (∀ e ∈ create_department_aggregates t, ∃ r ∈ t, e.id = r.department) ∧
    (∀ e ∈ create_agency_aggregates t, e.id = e.department_id ++ "-" ++ e.agency_code ∧
      ∃ r ∈ t, e.department_id = r.department ∧ e.agency_code = r.agency) ∧
    (∀ e ∈ create_fund_subcategory_aggregates t, ∃ r ∈ fund_filtered t,
      e.id = r.department ++ "-" ++ r.agency ++ "-" ++ r.uacs_fundsubcat_dsc.getD "" ∧
      e.description = r.uacs_fundsubcat_dsc.getD "") ∧
    (∀ e ∈ create_expense_aggregates t, ∃ r ∈ exp_filtered t,
      e.id = r.department ++ "-" ++ r.agency ++ "-" ++ r.uacs_exp_cd ∧
      e.expense_code = r.uacs_exp_cd) ∧
    (∀ e ∈ create_object_aggregates t, ∃ r ∈ obj_filtered t,
      e.id = r.department ++ "-" ++ r.agency ++ "-" ++ r.uacs_sobj_cd ∧
      e.object_code = r.uacs_sobj_cd) := by
  refine ⟨?_, ?_, ?_, ?_, ?_⟩
  · intro e he
    obtain ⟨k, hk, hkid, heq⟩ := dept_char t e he
    obtain ⟨r, hr, hkey⟩ := (mem_dept_group_keys t k).mp hk
    subst hkey
    exact ⟨r, hr, hkid.symm⟩
  · intro e he
    obtain ⟨k, hk, hkid, heq⟩ := agency_char t e he
    rw [← hkid] at heq
    subst heq
    obtain ⟨r, hr, hkey⟩ := (mem_agency_group_keys t k).mp hk
    subst hkey
    exact ⟨rfl, r, hr, rfl, rfl⟩
  · intro e he
    obtain ⟨k, hk, hkid, heq⟩ := fund_char t e he
    rw [← hkid] at heq
    subst heq
    obtain ⟨r, hr, hkey⟩ := (mem_fund_group_keys (fund_filtered t) k).mp hk
    subst hkey
    exact ⟨r, hr, rfl, rfl⟩
  · intro e he
    obtain ⟨k, hk, hkid, heq⟩ := exp_char t e he
    rw [← hkid] at heq
    subst heq
    obtain ⟨r, hr, hkey⟩ := (mem_exp_group_keys (exp_filtered t) k).mp hk
    subst hkey
    exact ⟨r, hr, rfl, rfl⟩
  · intro e he
    obtain ⟨k, hk, hkid, heq⟩ := obj_char t e he
    rw [← hkid] at heq
    subst heq
    obtain ⟨r, hr, hkey⟩ := (mem_obj_group_keys (obj_filtered t) k).mp hk
    subst hkey
    exact ⟨r, hr, rfl, rfl⟩

/-- C1 counterexample: on a one-row table whose fund code column is
"101" and fund description is "Special Account", the emitted fund
sub-category id is department-agency-description, not
department-agency-code as the claim states. -/
theorem C1_counterexample :
    (create_fund_subcategory_aggregates [rowC1]).map FundEntity.id = ["01-001-Special Account"] ∧
    rowC1.fundcd = "101" ∧
    ("01-001-Special Account" : String) ≠ "01-001-101" := by
  with_unfolding_all decide

/-- C1 witness: the amended fund clause instantiated on [rowC1]. -/
theorem C1_witness :
    fundEntC1 ∈ create_fund_subcategory_aggregates [rowC1] ∧
    (∃ r ∈ fund_filtered [rowC1],
      fundEntC1.id = r.department ++ "-" ++ r.agency ++ "-" ++ r.uacs_fundsubcat_dsc.getD "" ∧
      fundEntC1.description = r.uacs_fundsubcat_dsc.getD "") :=
  ⟨by with_unfolding_all decide,
   (C1_composite_ids [rowC1]).2.2.1 fundEntC1 (by with_unfolding_all decide)⟩

/-! ## C2 -/

/-- C2 (confirmed): at each of the five hierarchy levels the list of
emitted id values contains no duplicates. -/
theorem C2_unique_ids (t : List Row) :
    ((create_department_aggregates t).map DeptEntity.id).Nodup ∧
    ((create_agency_aggregates t).map AgencyEntity.id).Nodup ∧
    ((create_fund_subcategory_aggregates t).map FundEntity.id).Nodup ∧
    ((create_expense_aggregates t).map ExpenseEntity.id).Nodup ∧
    ((create_object_aggregates t).map ObjectEntity.id).Nodup :=
  ⟨dept_ids_nodup t, agency_ids_nodup t, fund_ids_nodup t, exp_ids_nodup t, obj_ids_nodup t⟩

/-! ## C3 -/

/-- C3 (confirmed): every agency entity's parent reference is the id of
exactly one department entity, and every fund, expense and object
entity's agency reference is the id of exactly one agency entity
(department entities carry no parent field at all in the data model). -/
theorem C3_parent_integrity (t : List Row) :
    (∀ e ∈ create_agency_aggregates t, ∃ d ∈ create_department_aggregates t,
      d.id = e.department_id ∧
      ∀ d' ∈ create_department_aggregates t, d'.id = e.department_id → d' = d) ∧
    (∀ e ∈ create_fund_subcategory_aggregates t, ∃ a ∈ create_agency_aggregates t,
      a.id = e.agency_id ∧
      ∀ a' ∈ create_agency_aggregates t, a'.id = e.agency_id → a' = a) ∧
    (∀ e ∈ create_expense_aggregates t, ∃ a ∈ create_agency_aggregates t,
      a.id = e.agency_id ∧
      ∀ a' ∈ create_agency_aggregates t, a'.id = e.agency_id → a' = a) ∧
    (∀ e ∈ create_object_aggregates t, ∃ a ∈ create_agency_aggregates t,
      a.id = e.agency_id ∧
      ∀ a' ∈ create_agency_aggregates t, a'.id = e.agency_id → a' = a) := by
  have huniq_dept : ∀ s, ∀ d ∈ create_department_aggregates t, d.id = s →
      ∀ d' ∈ create_department_aggregates t, d'.id = s → d' = d := by
    intro s d hd hds d' hd' hds'
    exact List.inj_on_of_nodup_map (dept_ids_nodup t) hd' hd (hds'.trans hds.symm)
  have huniq_ag : ∀ s, ∀ a ∈ create_agency_aggregates t, a.id = s →
      ∀ a' ∈ create_agency_aggregates t, a'.id = s → a' = a := by
    intro s a ha has a' ha' has'
    exact List.inj_on_of_nodup_map (agency_ids_nodup t) ha' ha (has'.trans has.symm)
  have hagency_exists : ∀ (dep ag : String), (∃ r ∈ t, r.department = dep ∧ r.agency = ag) →
      ∃ a ∈ create_agency_aggregates t, a.id = dep ++ "-" ++ ag := by
    rintro dep ag ⟨r, hr, hdep, hag⟩
    refine (agency_mem_ids t (dep ++ "-" ++ ag)).mpr ?_
    refine List.mem_map.mpr ⟨(r.agency, r.department, r.year), ?_, ?_⟩
    · exact (mem_agency_group_keys t _).mpr ⟨r, hr, rfl⟩
    · unfold agencyId
      rw [hdep, hag]
  refine ⟨?_, ?_, ?_, ?_⟩
  · intro e he
    obtain ⟨k, hk, hkid, heq⟩ := agency_char t e he
    rw [← hkid] at heq
    subst heq
    obtain ⟨r, hr, hkey⟩ := (mem_agency_group_keys t k).mp hk
    subst hkey
    have hd : ∃ d ∈ create_department_aggregates t, d.id = r.department := by
      refine (dept_mem_ids t r.department).mpr ?_
      exact List.mem_map.mpr ⟨(r.department, r.year), (mem_dept_group_keys t _).mpr ⟨r, hr, rfl⟩, rfl⟩
    obtain ⟨d, hdm, hdid⟩ := hd
    exact ⟨d, hdm, hdid, fun d' hd' hd'id => huniq_dept r.department d hdm hdid d' hd' hd'id⟩
  · intro e he
    obtain ⟨k, hk, hkid, heq⟩ := fund_char t e he
    rw [← hkid] at heq
    subst heq
    obtain ⟨r, hr, hkey⟩ := (mem_fund_group_keys (fund_filtered t) k).mp hk
    subst hkey
    have hrt : r ∈ t := List.mem_of_mem_filter hr
    obtain ⟨a, ham, haid⟩ := hagency_exists r.department r.agency ⟨r, hrt, rfl, rfl⟩
    exact ⟨a, ham, haid, fun a' ha' ha'id => huniq_ag _ a ham haid a' ha' ha'id⟩
  · intro e he
    obtain ⟨k, hk, hkid, heq⟩ := exp_char t e he
    rw [← hkid] at heq
    subst heq
    obtain ⟨r, hr, hkey⟩ := (mem_exp_group_keys (exp_filtered t) k).mp hk
    subst hkey
    have hrt : r ∈ t := List.mem_of_mem_filter hr
    obtain ⟨a, ham, haid⟩ := hagency_exists r.department r.agency ⟨r, hrt, rfl, rfl⟩
    exact ⟨a, ham, haid, fun a' ha' ha'id => huniq_ag _ a ham haid a' ha' ha'id⟩
  · intro e he
    obtain ⟨k, hk, hkid, heq⟩ := obj_char t e he
    rw [← hkid] at heq
    subst heq
    obtain ⟨r, hr, hkey⟩ := (mem_obj_group_keys (obj_filtered t) k).mp hk
    subst hkey
    have hrt : r ∈ t := List.mem_of_mem_filter hr
    obtain ⟨a, ham, haid⟩ := hagency_exists r.department r.agency ⟨r, hrt, rfl, rfl⟩
    exact ⟨a, ham, haid, fun a' ha' ha'id => huniq_ag _ a ham haid a' ha' ha'id⟩

/-- C3 witness: the agency clause instantiated on [rowC1]. -/
theorem C3_witness :
    agencyEntC1 ∈ create_agency_aggregates [rowC1] ∧
    (∃ d ∈ create_department_aggregates [rowC1], d.id = agencyEntC1.department_id ∧
      ∀ d' ∈ create_department_aggregates [rowC1], d'.id = agencyEntC1.department_id → d' = d) :=
  ⟨by with_unfolding_all decide,
   (C3_parent_integrity [rowC1]).1 agencyEntC1 (by with_unfolding_all decide)⟩

/-! ## C4 -/

/-- C4 (amended): conservation holds unconditionally at the department
and yearly-total levels, and at the agency, fund, expense and object
levels provided that group keys which render to the same composite id
string and the same year are equal (true in particular when no code
contains a hyphen and descriptions determine their codes). -/
theorem C4_conservation (t : List Row)
    (hagency : ∀ k₁ ∈ agency_group_keys t, ∀ k₂ ∈ agency_group_keys t,
      agencyId k₁ = agencyId k₂ → k₁.2.2 = k₂.2.2 → k₁ = k₂)
    (hfund : ∀ k₁ ∈ fund_group_keys (fund_filtered t), ∀ k₂ ∈ fund_group_keys (fund_filtered t),
      fundId k₁ = fundId k₂ → k₁.2.2.2 = k₂.2.2.2 → k₁ = k₂)
    (hexp : ∀ k₁ ∈ exp_group_keys (exp_filtered t), ∀ k₂ ∈ exp_group_keys (exp_filtered t),
      expId k₁ = expId k₂ → k₁.2.2.2.2 = k₂.2.2.2.2 → k₁ = k₂)
    (hobj : ∀ k₁ ∈ obj_group_keys (obj_filtered t), ∀ k₂ ∈ obj_group_keys (obj_filtered t),
      objId k₁ = objId k₂ → k₁.2.2.2.2 = k₂.2.2.2.2 → k₁ = k₂) :
    (∀ e ∈ create_department_aggregates t,
      (e.years.map (fun p => p.2.count)).sum =
        (t.filter (fun r => decide (r.department = e.id))).length ∧
      (e.years.map (fun p => p.2.amount)).sum =
        ((t.filter (fun r => decide (r.department = e.id))).map Row.amt).sum) ∧
    (∀ e ∈ create_agency_aggregates t,
      (e.years.map (fun p => p.2.count)).sum =
        (t.filter (fun r => decide (r.department ++ "-" ++ r.agency = e.id))).length ∧
      (e.years.map (fun p => p.2.amount)).sum =
        ((t.filter (fun r => decide (r.department ++ "-" ++ r.agency = e.id))).map Row.amt).sum) ∧
    (∀ e ∈ create_fund_subcategory_aggregates t,
      (e.years.map (fun p => p.2.count)).sum =
        ((fund_filtered t).filter (fun r =>
          decide (r.department ++ "-" ++ r.agency ++ "-" ++ r.uacs_fundsubcat_dsc.getD "" = e.id))).length ∧
      (e.years.map (fun p => p.2.amount)).sum =
        (((fund_filtered t).filter (fun r =>
          decide (r.department ++ "-" ++ r.agency ++ "-" ++ r.uacs_fundsubcat_dsc.getD "" = e.id))).map Row.amt).sum) ∧
    (∀ e ∈ create_expense_aggregates t,
      (e.years.map (fun p => p.2.count)).sum =
        ((exp_filtered t).filter (fun r =>
          decide (r.department ++ "-" ++ r.agency ++ "-" ++ r.uacs_exp_cd = e.id))).length ∧
      (e.years.map (fun p => p.2.amount)).sum =
        (((exp_filtered t).filter (fun r =>
          decide (r.department ++ "-" ++ r.agency ++ "-" ++ r.uacs_exp_cd = e.id))).map Row.amt).sum) ∧
    (∀ e ∈ create_object_aggregates t,
      (e.years.map (fun p => p.2.count)).sum =
        ((obj_filtered t).filter (fun r =>
          decide (r.department ++ "-" ++ r.agency ++ "-" ++ r.uacs_sobj_cd = e.id))).length ∧
      (e.years.map (fun p => p.2.amount)).sum =
        (((obj_filtered t).filter (fun r =>
          decide (r.department ++ "-" ++ r.agency ++ "-" ++ r.uacs_sobj_cd = e.id))).map Row.amt).sum) ∧
    (∀ yt ∈ create_yearly_totals t,
      yt.count = (t.filter (fun r => decide (r.year = yt.year))).length ∧
      yt.amount = ((t.filter (fun r => decide (r.year = yt.year))).map Row.amt).sum) :=
  ⟨dept_years_sums t, agency_years_sums t hagency, fund_years_sums t hfund,
   exp_years_sums t hexp, obj_years_sums t hobj, yearly_totals_char t⟩

/-- First row of the C4 counterexample: department "1", agency "2-3". -/
def rowC4a : Row :=
  { department := "1", agency := "2-3", uacs_dpt_dsc := none, uacs_agy_dsc := none,
    fundcd := "", uacs_fundsubcat_dsc := none, uacs_exp_cd := "", uacs_exp_dsc := none,
    uacs_sobj_cd := "", uacs_sobj_dsc := none, year := 2024, amt := 5 }

/-- Second row of the C4 counterexample: department "1-2", agency "3",
another group whose composite id string is also "1-2-3". -/
def rowC4b : Row :=
  { department := "1-2", agency := "3", uacs_dpt_dsc := none, uacs_agy_dsc := none,
    fundcd := "", uacs_fundsubcat_dsc := none, uacs_exp_cd := "", uacs_exp_dsc := none,
    uacs_sobj_cd := "", uacs_sobj_dsc := none, year := 2024, amt := 7 }

/-- C4 counterexample: the two distinct (department, agency) groups both
render to composite id "1-2-3"; the single emitted agency entity keeps
only the later group's year cell (count 1, amount 7), while the two
rows mapping to that id have count 2 and total amount 12 — conservation
fails as stated. -/
theorem C4_counterexample :
    (create_agency_aggregates [rowC4a, rowC4b]).map (fun e => (e.id, e.years)) =
      [("1-2-3", [(2024, ⟨1, 7⟩)])] ∧
    ([rowC4a, rowC4b].filter
      (fun r => decide (r.department ++ "-" ++ r.agency = "1-2-3"))).length = 2 ∧
    (([rowC4a, rowC4b].filter
      (fun r => decide (r.department ++ "-" ++ r.agency = "1-2-3"))).map Row.amt).sum = 12 := by
  with_unfolding_all decide

/-- C4 witness: the amended conservation instantiated on [rowC1], whose
keys are collision-free. -/
theorem C4_witness :
    ((∀ k₁ ∈ agency_group_keys [rowC1], ∀ k₂ ∈ agency_group_keys [rowC1],
      agencyId k₁ = agencyId k₂ → k₁.2.2 = k₂.2.2 → k₁ = k₂) ∧
     (∀ k₁ ∈ fund_group_keys (fund_filtered [rowC1]),
       ∀ k₂ ∈ fund_group_keys (fund_filtered [rowC1]),
      fundId k₁ = fundId k₂ → k₁.2.2.2 = k₂.2.2.2 → k₁ = k₂)) ∧
    (∀ e ∈ create_agency_aggregates [rowC1],
      (e.years.map (fun p => p.2.count)).sum =
        ([rowC1].filter (fun r => decide (r.department ++ "-" ++ r.agency = e.id))).length ∧
      (e.years.map (fun p => p.2.amount)).sum =
        (([rowC1].filter (fun r => decide (r.department ++ "-" ++ r.agency = e.id))).map Row.amt).sum) :=
  ⟨⟨by with_unfolding_all decide, by with_unfolding_all decide⟩,
   (C4_conservation [rowC1] (by with_unfolding_all decide) (by with_unfolding_all decide)
     (by with_unfolding_all decide) (by with_unfolding_all decide)).2.1⟩

/-! ## C5 -/

/-- C5 (amended): both resolvers — the department one keyed by the
department code, the agency one keyed by the (department, agency)
composite — scan the description variants in descending order of
summed amount; each returns the first (hence a maximal-amount)
institution-looking one; failing that, the first (hence a
maximal-amount) usable one, usable meaning non-empty, not "nan" after
lowercasing, and not whitespace-only; and when every variant fails
both tests — in particular when all descriptions are null or empty —
each returns str() of its group's first row's description column
(which is "nan" for a null), never the entity's code. The agency
characterization assumes composite ids are collision-free across
(department, agency) keys, since the dict writes of colliding keys
overwrite one another. -/
theorem C5_resolver (t : List Row) (d : String) (k : String × String)
    (hinj : ∀ k₁ ∈ agency_desc_keys t, ∀ k₂ ∈ agency_desc_keys t,
      k₁.1 ++ "-" ++ k₁.2 = k₂.1 ++ "-" ++ k₂.2 → k₁ = k₂)
    (hk : k ∈ agency_desc_keys t) :
    (dept_desc_pairs t d).Pairwise (fun p q : String × Rat => q.2 ≤ p.2) ∧
    ((∃ p ∈ dept_desc_pairs t d, is_department_name p.1 = true) →
      ∃ p ∈ dept_desc_pairs t d, dept_descriptions t d = p.1 ∧ is_department_name p.1 = true ∧
        ∀ q ∈ dept_desc_pairs t d, is_department_name q.1 = true → q.2 ≤ p.2) ∧
    ((∀ p ∈ dept_desc_pairs t d, is_department_name p.1 = false) →
      (∃ p ∈ dept_desc_pairs t d, desc_usable p.1 = true) →
      ∃ p ∈ dept_desc_pairs t d, dept_descriptions t d = p.1 ∧ desc_usable p.1 = true ∧
        ∀ q ∈ dept_desc_pairs t d, desc_usable q.1 = true → q.2 ≤ p.2) ∧
    ((∀ p ∈ dept_desc_pairs t d, is_department_name p.1 = false) →
      (∀ p ∈ dept_desc_pairs t d, desc_usable p.1 = false) →
      ∀ r₀ ∈ (t.filter (fun r => decide (r.department = d))).head?,
        dept_descriptions t d = pyStr r₀.uacs_dpt_dsc) ∧
    (agency_desc_pairs t k).Pairwise (fun p q : String × Rat => q.2 ≤ p.2) ∧
    ((∃ p ∈ agency_desc_pairs t k, is_department_name p.1 = true) →
      ∃ p ∈ agency_desc_pairs t k, agency_desc_for t k.1 k.2 = p.1 ∧
        is_department_name p.1 = true ∧
        ∀ q ∈ agency_desc_pairs t k, is_department_name q.1 = true → q.2 ≤ p.2) ∧
    ((∀ p ∈ agency_desc_pairs t k, is_department_name p.1 = false) →
      (∃ p ∈ agency_desc_pairs t k, desc_usable p.1 = true) →
      ∃ p ∈ agency_desc_pairs t k, agency_desc_for t k.1 k.2 = p.1 ∧ desc_usable p.1 = true ∧
        ∀ q ∈ agency_desc_pairs t k, desc_usable q.1 = true → q.2 ≤ p.2) ∧
    ((∀ p ∈ agency_desc_pairs t k, is_department_name p.1 = false) →
      (∀ p ∈ agency_desc_pairs t k, desc_usable p.1 = false) →
      ∀ r₀ ∈ (t.filter (fun r => decide (r.department = k.1 ∧ r.agency = k.2))).head?,
        agency_desc_for t k.1 k.2 = pyStr r₀.uacs_agy_dsc) := by
  have hdd : dept_descriptions t d =
      (match (dept_desc_pairs t d).find? (fun p => is_department_name p.1) with
      | some p => p.1
      | none =>
        match (dept_desc_pairs t d).find? (fun p => desc_usable p.1) with
        | some p => p.1
        | none =>
          match (t.filter (fun r => decide (r.department = d))).head? with
          | some r => pyStr r.uacs_dpt_dsc
          | none => d) := rfl
  have hga : agency_desc_for t k.1 k.2 = agency_group_desc t k :=
    agency_desc_resolved t hinj k hk
  have hgd : agency_group_desc t k =
      (match (agency_desc_pairs t k).find? (fun p => is_department_name p.1) with
      | some p => p.1
      | none =>
        match (agency_desc_pairs t k).find? (fun p => desc_usable p.1) with
        | some p => p.1
        | none =>
          match (t.filter (fun r => decide (r.department = k.1 ∧ r.agency = k.2))).head? with
          | some r => pyStr r.uacs_agy_dsc
          | none => "nan") := rfl
  have hsorted := dept_desc_pairs_sorted t d
  have hasorted := agency_desc_pairs_sorted t k
  refine ⟨hsorted, ?_, ?_, ?_, hasorted, ?_, ?_, ?_⟩
  · intro hex
    have hsome : ((dept_desc_pairs t d).find? (fun p => is_department_name p.1)).isSome = true :=
      List.find?_isSome.mpr hex
    obtain ⟨x, hx⟩ := Option.isSome_iff_exists.mp hsome
    obtain ⟨hm, hpx, hall⟩ := find?_max_of_sorted (fun p => p.2)
      (fun p => is_department_name p.1) (dept_desc_pairs t d) hsorted x hx
    refine ⟨x, hm, ?_, hpx, hall⟩
    rw [hdd, hx]
  · intro hnone hex
    have hfn : (dept_desc_pairs t d).find? (fun p => is_department_name p.1) = none :=
      List.find?_eq_none.mpr (fun p hp => by simp [hnone p hp])
    have hsome : ((dept_desc_pairs t d).find? (fun p => desc_usable p.1)).isSome = true :=
      List.find?_isSome.mpr hex
    obtain ⟨x, hx⟩ := Option.isSome_iff_exists.mp hsome
    obtain ⟨hm, hpx, hall⟩ := find?_max_of_sorted (fun p => p.2)
      (fun p => desc_usable p.1) (dept_desc_pairs t d) hsorted x hx
    refine ⟨x, hm, ?_, hpx, hall⟩
    rw [hdd, hfn, hx]
  · intro hnone₁ hnone₂ r₀ hr₀
    have hfn₁ : (dept_desc_pairs t d).find? (fun p => is_department_name p.1) = none :=
      List.find?_eq_none.mpr (fun p hp => by simp [hnone₁ p hp])
    have hfn₂ : (dept_desc_pairs t d).find? (fun p => desc_usable p.1) = none :=
      List.find?_eq_none.mpr (fun p hp => by simp [hnone₂ p hp])
    have hh : (t.filter (fun r => decide (r.department = d))).head? = some r₀ := hr₀
    rw [hdd, hfn₁, hfn₂, hh]
  · intro hex
    have hsome : ((agency_desc_pairs t k).find?
        (fun p => is_department_name p.1)).isSome = true :=
      List.find?_isSome.mpr hex
    obtain ⟨x, hx⟩ := Option.isSome_iff_exists.mp hsome
    obtain ⟨hm, hpx, hall⟩ := find?_max_of_sorted (fun p => p.2)
      (fun p => is_department_name p.1) (agency_desc_pairs t k) hasorted x hx
    refine ⟨x, hm, ?_, hpx, hall⟩
    rw [hga, hgd, hx]
  · intro hnone hex
    have hfn : (agency_desc_pairs t k).find? (fun p => is_department_name p.1) = none :=
      List.find?_eq_none.mpr (fun p hp => by simp [hnone p hp])
    have hsome : ((agency_desc_pairs t k).find? (fun p => desc_usable p.1)).isSome = true :=
      List.find?_isSome.mpr hex
    obtain ⟨x, hx⟩ := Option.isSome_iff_exists.mp hsome
    obtain ⟨hm, hpx, hall⟩ := find?_max_of_sorted (fun p => p.2)
      (fun p => desc_usable p.1) (agency_desc_pairs t k) hasorted x hx
    refine ⟨x, hm, ?_, hpx, hall⟩
    rw [hga, hgd, hfn, hx]
  · intro hnone₁ hnone₂ r₀ hr₀
    have hfn₁ : (agency_desc_pairs t k).find? (fun p => is_department_name p.1) = none :=
      List.find?_eq_none.mpr (fun p hp => by simp [hnone₁ p hp])
    have hfn₂ : (agency_desc_pairs t k).find? (fun p => desc_usable p.1) = none :=
      List.find?_eq_none.mpr (fun p hp => by simp [hnone₂ p hp])
    have hh : (t.filter (fun r =>
        decide (r.department = k.1 ∧ r.agency = k.2))).head? = some r₀ := hr₀
    rw [hga, hgd, hfn₁, hfn₂, hh]

/-- The all-null-description table of the C5 counterexample. -/
def rowC5 : Row :=
  { department := "01", agency := "001", uacs_dpt_dsc := none, uacs_agy_dsc := none,
    fundcd := "", uacs_fundsubcat_dsc := none, uacs_exp_cd := "", uacs_exp_dsc := none,
    uacs_sobj_cd := "", uacs_sobj_dsc := none, year := 2024, amt := 5 }

/-- C5 counterexample: when every description of department "01" is
null, the resolver returns "nan" (str of the NaN in the first row), not
the department code "01" the claim requires, and the emitted department
entity carries that "nan" description. -/
theorem C5_counterexample :
    dept_descriptions [rowC5] "01" = "nan" ∧
    ("nan" : String) ≠ "01" ∧
    (create_department_aggregates [rowC5]).map DeptEntity.description = ["nan"] := by
  with_unfolding_all decide

/-- The spec section 8 fallback-correctness table: an institution name
with the smaller amount must still win. -/
def tC5w : List Row :=
  [{ department := "01", agency := "001", uacs_dpt_dsc := some "XYZ Program",
     uacs_agy_dsc := none, fundcd := "", uacs_fundsubcat_dsc := none, uacs_exp_cd := "",
     uacs_exp_dsc := none, uacs_sobj_cd := "", uacs_sobj_dsc := none, year := 2024, amt := 100 },
   { department := "01", agency := "001", uacs_dpt_dsc := some "Department of Testing (DOT)",
     uacs_agy_dsc := none, fundcd := "", uacs_fundsubcat_dsc := none, uacs_exp_cd := "",
     uacs_exp_dsc := none, uacs_sobj_cd := "", uacs_sobj_dsc := none, year := 2024, amt := 50 }]

/-- C5 witness: the institution-name clause instantiated on tC5w — the
department resolver picks "Department of Testing (DOT)" despite its
lower amount — together with the agency resolver's all-null fallback
on the same table, which returns "nan". -/
theorem C5_witness :
    (∃ p ∈ dept_desc_pairs tC5w "01", is_department_name p.1 = true) ∧
    (∃ p ∈ dept_desc_pairs tC5w "01", dept_descriptions tC5w "01" = p.1 ∧
      is_department_name p.1 = true ∧
      ∀ q ∈ dept_desc_pairs tC5w "01", is_department_name q.1 = true → q.2 ≤ p.2) ∧
    dept_descriptions tC5w "01" = "Department of Testing (DOT)" ∧
    agency_desc_for tC5w "01" "001" = "nan" :=
  ⟨by with_unfolding_all decide,
   (C5_resolver tC5w "01" ("01", "001") (by with_unfolding_all decide)
     (by with_unfolding_all decide)).2.1 (by with_unfolding_all decide),
   by with_unfolding_all decide,
   by with_unfolding_all decide⟩

/-! ## C6 -/

/-- C8 (amended): the department list is sorted ascending by id, the
agency list by (department id, agency code), the expense and object
lists by (department id, agency id, own code), and the fund
sub-category list by (department id, agency id, own description) — the
fund level has no code in its sort key, just as its id has none. -/
theorem C8_sorted_outputs (t : List Row) :
    List.Sorted (fun e₁ e₂ : DeptEntity => pyStrLe e₁.id e₂.id = true)
      (create_department_aggregates t) ∧
    List.Sorted (fun e₁ e₂ : AgencyEntity =>
      pairLe (e₁.department_id, e₁.agency_code) (e₂.department_id, e₂.agency_code) = true)
      (create_agency_aggregates t) ∧
    List.Sorted (fun e₁ e₂ : FundEntity =>
      tripleLe (e₁.department_id, e₁.agency_id, e₁.description)
        (e₂.department_id, e₂.agency_id, e₂.description) = true)
      (create_fund_subcategory_aggregates t) ∧
    List.Sorted (fun e₁ e₂ : ExpenseEntity =>
      tripleLe (e₁.department_id, e₁.agency_id, e₁.expense_code)
        (e₂.department_id, e₂.agency_id, e₂.expense_code) = true)
      (create_expense_aggregates t) ∧
    List.Sorted (fun e₁ e₂ : ObjectEntity =>
      tripleLe (e₁.department_id, e₁.agency_id, e₁.object_code)
        (e₂.department_id, e₂.agency_id, e₂.object_code) = true)
      (create_object_aggregates t) := by
  refine ⟨?_, ?_, ?_, ?_, ?_⟩
  · unfold create_department_aggregates
    haveI : IsTotal DeptEntity (fun e₁ e₂ => pyStrLe e₁.id e₂.id = true) :=
      ⟨fun a b => pyStrLe_total a.id b.id⟩
    haveI : IsTrans DeptEntity (fun e₁ e₂ => pyStrLe e₁.id e₂.id = true) :=
      ⟨fun a b c h₁ h₂ => pyStrLe_trans a.id b.id c.id h₁ h₂⟩
    exact List.sorted_insertionSort _ _
  · unfold create_agency_aggregates
    haveI : IsTotal AgencyEntity (fun e₁ e₂ =>
        pairLe (e₁.department_id, e₁.agency_code) (e₂.department_id, e₂.agency_code) = true) :=
      ⟨fun a b => pairLe_total _ _⟩
    haveI : IsTrans AgencyEntity (fun e₁ e₂ =>
        pairLe (e₁.department_id, e₁.agency_code) (e₂.department_id, e₂.agency_code) = true) :=
      ⟨fun a b c h₁ h₂ => pairLe_trans _ _ _ h₁ h₂⟩
    exact List.sorted_insertionSort _ _
  · unfold create_fund_subcategory_aggregates
    haveI : IsTotal FundEntity (fun e₁ e₂ =>
        tripleLe (e₁.department_id, e₁.agency_id, e₁.description)
          (e₂.department_id, e₂.agency_id, e₂.description) = true) :=
      ⟨fun a b => tripleLe_total _ _⟩
    haveI : IsTrans FundEntity (fun e₁ e₂ =>
        tripleLe (e₁.department_id, e₁.agency_id, e₁.description)
          (e₂.department_id, e₂.agency_id, e₂.description) = true) :=
      ⟨fun a b c h₁ h₂ => tripleLe_trans _ _ _ h₁ h₂⟩
    exact List.sorted_insertionSort _ _
  · unfold create_expense_aggregates
    haveI : IsTotal ExpenseEntity (fun e₁ e₂ =>
        tripleLe (e₁.department_id, e₁.agency_id, e₁.expense_code)
          (e₂.department_id, e₂.agency_id, e₂.expense_code) = true) :=
      ⟨fun a b => tripleLe_total _ _⟩
    haveI : IsTrans ExpenseEntity (fun e₁ e₂ =>
        tripleLe (e₁.department_id, e₁.agency_id, e₁.expense_code)
          (e₂.department_id, e₂.agency_id, e₂.expense_code) = true) :=
      ⟨fun a b c h₁ h₂ => tripleLe_trans _ _ _ h₁ h₂⟩
    exact List.sorted_insertionSort _ _
  · unfold create_object_aggregates
    haveI : IsTotal ObjectEntity (fun e₁ e₂ =>
        tripleLe (e₁.department_id, e₁.agency_id, e₁.object_code)
          (e₂.department_id, e₂.agency_id, e₂.object_code) = true) :=
      ⟨fun a b => tripleLe_total _ _⟩
    haveI : IsTrans ObjectEntity (fun e₁ e₂ =>
        tripleLe (e₁.department_id, e₁.agency_id, e₁.object_code)
          (e₂.department_id, e₂.agency_id, e₂.object_code) = true) :=
      ⟨fun a b c h₁ h₂ => tripleLe_trans _ _ _ h₁ h₂⟩
    exact List.sorted_insertionSort _ _

/-- First row of the C8 counterexample: fund code "100", fund
description "Zulu Fund". -/
def rowC8a : Row :=
  { department := "01", agency := "001", uacs_dpt_dsc := none, uacs_agy_dsc := none,
    fundcd := "100", uacs_fundsubcat_dsc := some "Zulu Fund", uacs_exp_cd := "",
    uacs_exp_dsc := none, uacs_sobj_cd := "", uacs_sobj_dsc := none, year := 2024, amt := 1 }

/-- Second row of the C8 counterexample: fund code "200", fund
description "Alpha Fund". -/
def rowC8b : Row :=
  { department := "01", agency := "001", uacs_dpt_dsc := none, uacs_agy_dsc := none,
    fundcd := "200", uacs_fundsubcat_dsc := some "Alpha Fund", uacs_exp_cd := "",
    uacs_exp_dsc := none, uacs_sobj_cd := "", uacs_sobj_dsc := none, year := 2024, amt := 2 }

/-- C8 counterexample: the fund list comes out ordered by description —
the entity fed by the rows with fund code "200" precedes the one fed by
fund code "100", although "100" sorts before "200" — so the fund list
is not sorted by (department id, agency id, own code) as the claim
states. -/
theorem C8_counterexample :
    (create_fund_subcategory_aggregates [rowC8a, rowC8b]).map FundEntity.description =
      ["Alpha Fund", "Zulu Fund"] ∧
    ([rowC8a, rowC8b].filter
      (fun r => decide (r.uacs_fundsubcat_dsc = some "Alpha Fund"))).map Row.fundcd = ["200"] ∧
    ([rowC8a, rowC8b].filter
      (fun r => decide (r.uacs_fundsubcat_dsc = some "Zulu Fund"))).map Row.fundcd = ["100"] ∧
    pyStrLt "100" "200" = true := by
  with_unfolding_all decide

/-! ## C9 -/

/-- C9 (confirmed): to_slug is idempotent — slugging a slug returns it
unchanged. -/
theorem C9_to_slug_idempotent (s : String) : to_slug (to_slug s) = to_slug s :=
  to_slug_to_slug s

/-! ## C10 -/

/-- C10 (confirmed): every fund, expense and object entity's id is its
agency reference followed by "-" and its own component (description for
fund, code for expense and object); the agency reference is the
department id followed by "-" and the agency code of an underlying row;
hence the parent reference is a prefix of the child id. -/
theorem C10_child_id_extends_parent (t : List Row) :
    (∀ e ∈ create_fund_subcategory_aggregates t,
      e.id = e.agency_id ++ "-" ++ e.description ∧
      (∃ r ∈ fund_filtered t, e.agency_id = e.department_id ++ "-" ++ r.agency) ∧
      e.agency_id.data <+: e.id.data) ∧
    (∀ e ∈ create_expense_aggregates t,
      e.id = e.agency_id ++ "-" ++ e.expense_code ∧
      (∃ r ∈ exp_filtered t, e.agency_id = e.department_id ++ "-" ++ r.agency) ∧
      e.agency_id.data <+: e.id.data) ∧
    (∀ e ∈ create_object_aggregates t,
      e.id = e.agency_id ++ "-" ++ e.object_code ∧
      (∃ r ∈ obj_filtered t, e.agency_id = e.department_id ++ "-" ++ r.agency) ∧
      e.agency_id.data <+: e.id.data) := by
  refine ⟨?_, ?_, ?_⟩
  · intro e he
    obtain ⟨k, hk, hkid, heq⟩ := fund_char t e he
    rw [← hkid] at heq
    subst heq
    obtain ⟨r, hr, hkey⟩ := (mem_fund_group_keys (fund_filtered t) k).mp hk
    subst hkey
    exact ⟨rfl, ⟨r, hr, rfl⟩,
      (str_append_isPre _ "-").trans (str_append_isPre _ _)⟩
  · intro e he
    obtain ⟨k, hk, hkid, heq⟩ := exp_char t e he
    rw [← hkid] at heq
    subst heq
    obtain ⟨r, hr, hkey⟩ := (mem_exp_group_keys (exp_filtered t) k).mp hk
    subst hkey
    exact ⟨rfl, ⟨r, hr, rfl⟩,
      (str_append_isPre _ "-").trans (str_append_isPre _ _)⟩
  · intro e he
    obtain ⟨k, hk, hkid, heq⟩ := obj_char t e he
    rw [← hkid] at heq
    subst heq
    obtain ⟨r, hr, hkey⟩ := (mem_obj_group_keys (obj_filtered t) k).mp hk
    subst hkey
    exact ⟨rfl, ⟨r, hr, rfl⟩,
      (str_append_isPre _ "-").trans (str_append_isPre _ _)⟩

/-- C10 witness: the expense clause instantiated on [rowC1]. -/
theorem C10_witness :
    (ExpenseEntity.mk "01-001-5020101000" "traveling-expenses" "5020101000"
      "Traveling Expenses" "01" "01-001" [(2024, ⟨1, 5⟩)]) ∈
        create_expense_aggregates [rowC1] ∧
    ((ExpenseEntity.mk "01-001-5020101000" "traveling-expenses" "5020101000"
      "Traveling Expenses" "01" "01-001" [(2024, ⟨1, 5⟩)]).id =
      (ExpenseEntity.mk "01-001-5020101000" "traveling-expenses" "5020101000"
        "Traveling Expenses" "01" "01-001" [(2024, ⟨1, 5⟩)]).agency_id ++ "-" ++
      (ExpenseEntity.mk "01-001-5020101000" "traveling-expenses" "5020101000"
        "Traveling Expenses" "01" "01-001" [(2024, ⟨1, 5⟩)]).expense_code ∧
     (∃ r ∈ exp_filtered [rowC1],
       (ExpenseEntity.mk "01-001-5020101000" "traveling-expenses" "5020101000"
         "Traveling Expenses" "01" "01-001" [(2024, ⟨1, 5⟩)]).agency_id =
       (ExpenseEntity.mk "01-001-5020101000" "traveling-expenses" "5020101000"
         "Traveling Expenses" "01" "01-001" [(2024, ⟨1, 5⟩)]).department_id ++ "-" ++ r.agency) ∧
     (ExpenseEntity.mk "01-001-5020101000" "traveling-expenses" "5020101000"
       "Traveling Expenses" "01" "01-001" [(2024, ⟨1, 5⟩)]).agency_id.data <+:
     (ExpenseEntity.mk "01-001-5020101000" "traveling-expenses" "5020101000"
       "Traveling Expenses" "01" "01-001" [(2024, ⟨1, 5⟩)]).id.data) :=
  ⟨by with_unfolding_all decide,
   (C10_child_id_extends_parent [rowC1]).2.1 _ (by with_unfolding_all decide)⟩
